import Mathlib

/-! # BracoRobotico: session state machine, debounce, cursor transform and LED levels

A shallow embedding of `src/BracoRobotico.c`.  The global variables of the C
program become the fields of `State`; the interrupt callback `gpio_callback`
and one iteration of the `while (true)` loop of `main` (`tick`) become pure
functions from a state and the values read from the hardware during the call
(clock, input pin, ADC samples, `rand()` results) to the next state.

Machine integers: `int` values that cannot overflow are `Int`; `uint16_t` and
`uint32_t` values are `Nat` reduced modulo `2^16` / `2^32` where the C code
stores or subtracts them.  The two `float` expressions are evaluated with an
exact model of IEEE-754 binary32 round-to-nearest-even (`F32`).

Rendering calls (`ssd1306_*`, `draw_*`, `desenhar_*`) and `printf` only write
to the display and the serial port and are left out.
-/

namespace BracoRobotico

/-! ## Constants (`#define`s) -/

def JOYSTICK_PB : Nat := 22
def BUTTON_A_PIN : Nat := 5
def BUTTON_B_PIN : Nat := 6
def DEADZONE_X : Int := 10
def DEADZONE_Y : Int := 10
def DISPLAY_WIDTH : Int := 128
def DISPLAY_HEIGHT : Int := 64
def SQUARE_SIZE : Int := 8
def TEMPO_EXIBICAO_ALVO : Nat := 3000

/-! ## IEEE-754 binary32 arithmetic, as far as the program uses it -/

/-- A finite binary32 value `(-1)^neg * sig * 2^exp`.  Exponent overflow and
subnormals are not modelled: the program only multiplies an `int` by a constant
of magnitude below `2^10`, which stays far inside the normal range. -/
structure F32 where
  neg : Bool
  sig : Nat
  exp : Int
deriving DecidableEq

/-- Number of low bits to drop so that at most 24 significant bits remain
(the first argument bounds the number of halvings; `m` itself is enough). -/
def dropBits : Nat → Nat → Nat
  | 0, _ => 0
  | fuel + 1, m => if m < 16777216 then 0 else 1 + dropBits fuel (m / 2)

/-- Round `sig * 2^exp` to a 24-bit significand, ties to even. -/
def f32Round (neg : Bool) (sig : Nat) (exp : Int) : F32 :=
  let k := dropBits sig sig
  let q := sig / 2 ^ k
  let r := sig % 2 ^ k
  let up : Bool := decide (2 ^ k < 2 * r) || (decide (2 * r = 2 ^ k) && decide (q % 2 = 1))
  { neg := neg, sig := if up then q + 1 else q, exp := exp + (k : Int) }

/-- Conversion `(float) n` of an `int`. -/
def F32.ofInt (n : Int) : F32 := f32Round (decide (n < 0)) n.natAbs 0

/-- Single-precision product. -/
def F32.mul (a b : F32) : F32 := f32Round (xor a.neg b.neg) (a.sig * b.sig) (a.exp + b.exp)

/-- Conversion `(int) f`: truncation toward zero. -/
def F32.toInt (f : F32) : Int :=
  let mag : Nat := if 0 ≤ f.exp then f.sig * 2 ^ f.exp.toNat else f.sig / 2 ^ (-f.exp).toNat
  if f.neg then -(mag : Int) else (mag : Int)

/-- The literal `0.05f`: the binary32 nearest to 1/20 is `13421773 * 2^-28`. -/
def SLOW_FACTOR : F32 := { neg := false, sig := 13421773, exp := -28 }

/-- The constant expression `65535.0f / 100.0f`: the binary32 nearest to 655.35
is `10737254 * 2^-14`. -/
def GREEN_SCALE : F32 := { neg := false, sig := 10737254, exp := -14 }

/-! ## Program state -/

/-- The global variables of the program, together with the three PWM compare
levels last written with `pwm_set_chan_level`. -/
structure State where
  pwm_enabled : Bool
  adc_value_x : Nat
  adc_value_y : Nat
  altura : Int
  alvo_x : Int
  alvo_y : Int
  alvo_altura : Int
  target_acquired : Bool
  capture_mode : Bool
  altura_ok : Bool
  local_ok : Bool
  in_position : Bool
  cursor_x : Int
  cursor_y : Int
  exibir_alvo : Bool
  exibir_alvo_start_time : Nat
  last_time_joystick : Nat
  last_time_buttonA : Nat
  last_time_buttonB : Nat
  red_level : Nat
  green_level : Nat
  blue_level : Nat
deriving DecidableEq

/-- What `gpio_callback` reads from the hardware during one call. -/
structure CallbackIn where
  /-- the pin the interrupt was raised for -/
  gpio : Nat
  /-- value of `to_ms_since_boot` read inside `debounce` -/
  debounce_time : Nat
  /-- value of `gpio_get` read inside `debounce` (buttons are active low) -/
  pin_high : Bool
  /-- value of `to_ms_since_boot` read when the height is confirmed -/
  confirm_time : Nat
  /-- the three successive results of `rand()` -/
  rand1 : Nat
  rand2 : Nat
  rand3 : Nat
deriving DecidableEq

/-- What one iteration of the main loop reads from the hardware. -/
structure TickIn where
  /-- value of `to_ms_since_boot` read while the target is being shown -/
  current_time : Nat
  /-- results of `adc_read` on inputs 0 and 1 -/
  adc_x : Nat
  adc_y : Nat
  /-- the three successive results of `rand()` -/
  rand1 : Nat
  rand2 : Nat
  rand3 : Nat
deriving DecidableEq

/-! ## `update_pwm` -/

/-- Conversion of an `int` to `int16_t` (two's complement wrap). -/
def toInt16 (v : Int) : Int :=
  let w := v % 65536
  if w < 32768 then w else w - 65536

/-- The intensity expression of `update_pwm` for one axis:
`(abs(c) > dz) ? (uint16_t)(((uint32_t)abs(c) * 65535) / (2048 - dz)) : 0`
with `c = (int16_t)(value - 2048)`; the following `if (… > 65535)` can never
fire on a `uint16_t`. -/
def axisIntensity (value : Nat) (deadzone : Int) : Nat :=
  let centered : Int := toInt16 ((value : Int) - 2048)
  if centered.natAbs > deadzone then
    ((centered.natAbs * 65535 % 4294967296) / (2048 - deadzone).toNat) % 65536
  else 0

/-- The green level `(uint16_t)((float)altura * (65535.0f / 100.0f))`.  The C
standard defines the conversion only for values in `0 .. 65535`, which covers
every `altura` in `0 .. 100`; elsewhere the usual behaviour of the target
(saturate negatives to 0, keep the low 16 bits) is taken. -/
def greenIntensity (altura : Int) : Nat :=
  ((F32.mul (F32.ofInt altura) GREEN_SCALE).toInt.toNat) % 65536

/-- The function `update_pwm(x_value, y_value)`; the arguments are `uint16_t`. -/
def update_pwm (s : State) (x_value y_value : Nat) : State :=
  if !s.pwm_enabled then s
  else
    let s1 := { s with red_level := axisIntensity x_value DEADZONE_X }
    let s2 := { s1 with blue_level := axisIntensity y_value DEADZONE_Y }
    if s2.local_ok && !s2.target_acquired then
      { s2 with green_level := greenIntensity s2.altura }
    else
      { s2 with green_level := 0 }

/-! ## `debounce` -/

/-- The function `debounce(gpio, &last_time)`: returns the result and the new
value of `*last_time`.  `current_time - *last_time` is a `uint32_t`
subtraction. -/
def debounce (current_time : Nat) (pin_high : Bool) (last_time : Nat) : Bool × Nat :=
  let ct := current_time % 4294967296
  if (ct + 4294967296 - last_time % 4294967296) % 4294967296 < 200 then
    (false, last_time)
  else
    (!pin_high, ct)

/-! ## `gpio_callback` -/

/-- Lines 150-161: the respawn performed by the confirm button. -/
def respawnPress (s : State) (r1 r2 r3 : Nat) : State :=
  { s with
    target_acquired := false
    pwm_enabled := true
    altura := 0
    alvo_x := ((r1 : Int) % DISPLAY_WIDTH)
    alvo_y := ((r2 : Int) % DISPLAY_HEIGHT)
    alvo_altura := ((r3 : Int) % 101)
    capture_mode := false
    in_position := false
    altura_ok := false
    local_ok := false
    cursor_x := DISPLAY_WIDTH / 2
    cursor_y := DISPLAY_HEIGHT / 2 }

/-- Lines 128-163: the body run when the confirm button press is accepted. -/
def confirmBody (s : State) (i : CallbackIn) : State :=
  if !s.altura_ok then
    if s.altura = s.alvo_altura then
      { s with
        altura_ok := true
        local_ok := true
        exibir_alvo := true
        exibir_alvo_start_time := i.confirm_time % 4294967296 }
    else s
  else if s.in_position && s.local_ok then
    let s1 := { s with capture_mode := !s.capture_mode }
    if s1.capture_mode then { s1 with pwm_enabled := false }
    else { s1 with pwm_enabled := true }
  else if s.target_acquired then
    respawnPress s i.rand1 i.rand2 i.rand3
  else s

/-- Lines 166-175: the two height buttons. -/
def heightButtons (s : State) (i : CallbackIn) : State :=
  if !s.altura_ok then
    let s1 :=
      if i.gpio = BUTTON_A_PIN then
        let d := debounce i.debounce_time i.pin_high s.last_time_buttonA
        let sa := { s with last_time_buttonA := d.2 }
        if d.1 then (if sa.altura > 0 then { sa with altura := sa.altura - 1 } else sa)
        else sa
      else s
    if i.gpio = BUTTON_B_PIN then
      let d := debounce i.debounce_time i.pin_high s1.last_time_buttonB
      let sb := { s1 with last_time_buttonB := d.2 }
      if d.1 then (if sb.altura < 100 then { sb with altura := sb.altura + 1 } else sb)
      else sb
    else s1
  else s

/-- The interrupt handler `gpio_callback(gpio, events)`. -/
def gpio_callback (s : State) (i : CallbackIn) : State :=
  let s1 :=
    if i.gpio = JOYSTICK_PB then
      let d := debounce i.debounce_time i.pin_high s.last_time_joystick
      let sj := { s with last_time_joystick := d.2 }
      if d.1 then confirmBody sj i else sj
    else s
  heightButtons s1 i

/-! ## The main loop -/

/-- Lines 342-343 (and 344-345 with the height bound): the two clamping `if`s. -/
def clampTo (c hi : Int) : Int :=
  let c1 := if c < 0 then 0 else c
  if c1 > hi then hi else c1

/-- Lines 330-345: the cursor computed from the two stored samples. -/
def analogToCursor (adc_value_x adc_value_y : Nat) : Int × Int :=
  let centered_x : Int := (adc_value_x : Int) - 2048
  let centered_y : Int := (adc_value_y : Int) - 2048
  let rotated_x : Int := -centered_y
  let rotated_y : Int := centered_x
  let cx := (DISPLAY_WIDTH - SQUARE_SIZE) / 2 - (F32.mul (F32.ofInt rotated_x) SLOW_FACTOR).toInt
  let cy := (DISPLAY_HEIGHT - SQUARE_SIZE) / 2 - (F32.mul (F32.ofInt rotated_y) SLOW_FACTOR).toInt
  (clampTo cx (DISPLAY_WIDTH - SQUARE_SIZE), clampTo cy (DISPLAY_HEIGHT - SQUARE_SIZE))

/-- The test of lines 350-351 and 360-361: the target lies in the cursor square,
both ends included. -/
def targetInSquare (s : State) : Bool :=
  decide (s.alvo_x ≥ s.cursor_x) && decide (s.alvo_x ≤ s.cursor_x + SQUARE_SIZE) &&
  decide (s.alvo_y ≥ s.cursor_y) && decide (s.alvo_y ≤ s.cursor_y + SQUARE_SIZE)

/-- Lines 385-396: the respawn performed by the main loop after `sleep_ms(5000)`. -/
def respawnTick (s : State) (r1 r2 r3 : Nat) : State :=
  { s with
    target_acquired := false
    pwm_enabled := true
    altura := 0
    alvo_x := ((r1 : Int) % DISPLAY_WIDTH)
    alvo_y := ((r2 : Int) % DISPLAY_HEIGHT)
    alvo_altura := ((r3 : Int) % 101)
    capture_mode := false
    in_position := false
    altura_ok := false
    local_ok := false
    cursor_x := (DISPLAY_WIDTH - SQUARE_SIZE) / 2
    cursor_y := (DISPLAY_HEIGHT - SQUARE_SIZE) / 2 }

/-- Lines 323-367: the branch `else if (local_ok)` of the main loop. -/
def positioningBody (s : State) (i : TickIn) : State :=
  let s1 := { s with adc_value_x := i.adc_x % 65536, adc_value_y := i.adc_y % 65536 }
  let c := analogToCursor s1.adc_value_x s1.adc_value_y
  let s2 := { s1 with cursor_x := c.1, cursor_y := c.2 }
  let s3 := update_pwm s2 s2.adc_value_x s2.adc_value_y
  let s4 := { s3 with in_position := targetInSquare s3 }
  if s4.capture_mode && !s4.target_acquired then
    if targetInSquare s4 then { s4 with target_acquired := true, capture_mode := false }
    else s4
  else s4

/-- One iteration of the `while (true)` loop of `main` (lines 297-398). -/
def tick (s : State) (i : TickIn) : State :=
  if s.exibir_alvo then
    let current_time := i.current_time % 4294967296
    if (current_time + 4294967296 - s.exibir_alvo_start_time % 4294967296) % 4294967296
        ≥ TEMPO_EXIBICAO_ALVO then
      { s with exibir_alvo := false }
    else s
  else if !s.altura_ok then s
  else if s.local_ok then positioningBody s i
  else if s.target_acquired then respawnTick s i.rand1 i.rand2 i.rand3
  else s

/-- The state in which the main loop is entered: the initialisers of the
globals, the first target (lines 283-285) and the centred cursor (289-290); no
button interrupt is taken to be served before the loop starts. -/
def initState (r1 r2 r3 : Nat) : State :=
  { pwm_enabled := true
    adc_value_x := 0
    adc_value_y := 0
    altura := 0
    alvo_x := ((r1 : Int) % DISPLAY_WIDTH)
    alvo_y := ((r2 : Int) % DISPLAY_HEIGHT)
    alvo_altura := ((r3 : Int) % 101)
    target_acquired := false
    capture_mode := false
    altura_ok := false
    local_ok := false
    in_position := false
    cursor_x := (DISPLAY_WIDTH - SQUARE_SIZE) / 2
    cursor_y := (DISPLAY_HEIGHT - SQUARE_SIZE) / 2
    exibir_alvo := false
    exibir_alvo_start_time := 0
    last_time_joystick := 0
    last_time_buttonA := 0
    last_time_buttonB := 0
    red_level := 0
    green_level := 0
    blue_level := 0 }


/-! ## Phases and accepted presses -/

/-- Positioning: height confirmed, reveal over, target not yet acquired. -/
def Positioning (s : State) : Prop :=
  s.altura_ok = true ∧ s.local_ok = true ∧ s.exibir_alvo = false ∧ s.target_acquired = false

/-- Acquired: as Positioning, with `target_acquired` set. -/
def Acquired (s : State) : Prop :=
  s.altura_ok = true ∧ s.local_ok = true ∧ s.exibir_alvo = false ∧ s.target_acquired = true

instance (s : State) : Decidable (Positioning s) := by unfold Positioning; infer_instance
instance (s : State) : Decidable (Acquired s) := by unfold Acquired; infer_instance

/-- The call of `gpio_callback` is an accepted confirm press: it is raised for
the joystick button and `debounce` returns true. -/
def AcceptedConfirm (s : State) (i : CallbackIn) : Prop :=
  i.gpio = JOYSTICK_PB ∧ (debounce i.debounce_time i.pin_high s.last_time_joystick).1 = true

instance (s : State) (i : CallbackIn) : Decidable (AcceptedConfirm s i) := by
  unfold AcceptedConfirm; infer_instance

/-- The containment test of the claims: the target point lies in the square
with top-left corner `(cx, cy)` and edge `SQUARE_SIZE`, bounds included. -/
def Contains (cx cy tx ty : Int) : Prop :=
  cx ≤ tx ∧ tx ≤ cx + 8 ∧ cy ≤ ty ∧ ty ≤ cy + 8

instance (cx cy tx ty : Int) : Decidable (Contains cx cy tx ty) := by
  unfold Contains; infer_instance

/-- The state of a fresh round, as the claims describe it: a valid target, height
0, not armed, PWM enabled, all phase flags and `in_position` clear. -/
def RespawnPost (s : State) : Prop :=
  (0 ≤ s.alvo_x ∧ s.alvo_x < 128) ∧ (0 ≤ s.alvo_y ∧ s.alvo_y < 64) ∧
  (0 ≤ s.alvo_altura ∧ s.alvo_altura ≤ 100) ∧
  s.altura = 0 ∧ s.capture_mode = false ∧ s.pwm_enabled = true ∧
  s.altura_ok = false ∧ s.local_ok = false ∧ s.target_acquired = false ∧
  s.in_position = false

instance (s : State) : Decidable (RespawnPost s) := by unfold RespawnPost; infer_instance

/-- States reachable from session start by calls of the interrupt handler and
loop iterations, each taken as one atomic step with arbitrary hardware
readings. -/
inductive Reachable : State → Prop
  | init (r1 r2 r3 : Nat) : Reachable (initState r1 r2 r3)
  | press (s : State) (i : CallbackIn) : Reachable s → Reachable (gpio_callback s i)
  | tick (s : State) (i : TickIn) : Reachable s → Reachable (tick s i)

/-! ## A concrete session, used for the worked scenarios -/

/-- Session start with target `(50, 30)` and target height 0. -/
def runInit : State := initState 50 30 0

/-- A confirm press with clock reading `t`, button held low, generator outputs
1, 2, 3. -/
def pressAt (t : Nat) : CallbackIn :=
  { gpio := JOYSTICK_PB, debounce_time := t, pin_high := false, confirm_time := t,
    rand1 := 1, rand2 := 2, rand3 := 3 }

/-- A loop iteration with clock reading `t`, samples `x`, `y` and generator
outputs 1, 2, 3. -/
def tickAt (t x y : Nat) : TickIn :=
  { current_time := t, adc_x := x, adc_y := y, rand1 := 1, rand2 := 2, rand3 := 3 }

/-- Height 0 equals the target height: the confirm press starts the reveal. -/
def runReveal : State := gpio_callback runInit (pressAt 1000)

/-- After 3000 ms the reveal ends. -/
def runPositioning : State := tick runReveal (tickAt 4000 2048 2048)

/-- Samples `(2088, 1768)` put the cursor at `(46, 26)`, over the target. -/
def runAligned : State := tick runPositioning (tickAt 4010 2088 1768)

/-- The confirm press while aligned arms the capture. -/
def runArmed : State := gpio_callback runAligned (pressAt 5000)

/-- The next aligned iteration acquires the target. -/
def runAcquired : State := tick runArmed (tickAt 5010 2088 1768)

/-- Armed, then the joystick is released: the cursor returns to `(60, 28)` and
the target is outside the square. -/
def runArmedAway : State := tick runArmed (tickAt 5010 2048 2048)

/-- Acquired, then the joystick is released. -/
def runAcquiredAway : State := tick runAcquired (tickAt 5020 2048 2048)



/-! ## Definitions for the debounce, LED, transform and invariant claims -/

/-- SettingHeight: no phase flag is set. -/
def SettingHeight (s : State) : Prop :=
  s.altura_ok = false ∧ s.local_ok = false ∧ s.exibir_alvo = false ∧ s.target_acquired = false

/-- TransientTargetReveal: height confirmed and the target coordinates on show. -/
def TransientTargetReveal (s : State) : Prop :=
  s.altura_ok = true ∧ s.local_ok = true ∧ s.exibir_alvo = true ∧ s.target_acquired = false

instance (s : State) : Decidable (SettingHeight s) := by unfold SettingHeight; infer_instance
instance (s : State) : Decidable (TransientTargetReveal s) := by
  unfold TransientTargetReveal; infer_instance

/-- Exactly one of the four phases is active, and `capture_mode` and
`in_position` are clear in SettingHeight and TransientTargetReveal. -/
def PhaseInv (s : State) : Prop :=
  (SettingHeight s ∨ TransientTargetReveal s ∨ Positioning s ∨ Acquired s) ∧
  ¬ (SettingHeight s ∧ TransientTargetReveal s) ∧ ¬ (SettingHeight s ∧ Positioning s) ∧
  ¬ (SettingHeight s ∧ Acquired s) ∧ ¬ (TransientTargetReveal s ∧ Positioning s) ∧
  ¬ (TransientTargetReveal s ∧ Acquired s) ∧ ¬ (Positioning s ∧ Acquired s) ∧
  (¬ Positioning s → ¬ Acquired s → s.capture_mode = false ∧ s.in_position = false)

instance (s : State) : Decidable (PhaseInv s) := by unfold PhaseInv; infer_instance

/-- The path condition of the cooldown branch of the main loop (line 382): the
three earlier tests of the `if` chain fail and `target_acquired` holds. -/
def CooldownGuard (s : State) : Prop :=
  s.exibir_alvo = false ∧ s.altura_ok = true ∧ s.local_ok = false ∧ s.target_acquired = true

instance (s : State) : Decidable (CooldownGuard s) := by unfold CooldownGuard; infer_instance

/-- A sequence of calls of `debounce` on one button, each given by the clock
reading and the level of the input line, starting with the stored stamp `last`:
the clock readings of the calls that return true, in order. -/
def debounceSeq : Nat → List (Nat × Bool) → List Nat
  | _, [] => []
  | last, (t, pin_high) :: rest =>
    if (debounce t pin_high last).1 then t :: debounceSeq (debounce t pin_high last).2 rest
    else debounceSeq (debounce t pin_high last).2 rest

/-- Truncation toward zero of a rational number. -/
def truncQ (q : ℚ) : Int := if 0 ≤ q then ⌊q⌋ else ⌈q⌉

/-- Clamp `v` to the interval `[lo, hi]`. -/
def clampQ (v lo hi : Int) : Int := max lo (min v hi)

/-- The reference transform of the specification, with the slow factor taken as
the rational 1/20: centre both samples on 2048, rotate (`rotatedX = -centeredY`,
`rotatedY = centeredX`), scale by 1/20 truncating toward zero, subtract from
the display-centre offset `(60, 28)`, clamp to `[0, 120] × [0, 56]`. -/
def referenceCursor (rawX rawY : Nat) : Int × Int :=
  let centeredX : ℚ := (rawX : ℚ) - 2048
  let centeredY : ℚ := (rawY : ℚ) - 2048
  let rotatedX : ℚ := -centeredY
  let rotatedY : ℚ := centeredX
  (clampQ (60 - truncQ (rotatedX * (1 / 20))) 0 120,
    clampQ (28 - truncQ (rotatedY * (1 / 20))) 0 56)

/-- The single-precision product of `n` and `-n` with `0.05f`, truncated, is
the quotient `n / 20` and its negative. -/
def slowFactorAgrees (n : Nat) : Bool :=
  decide ((F32.mul (F32.ofInt (n : Int)) SLOW_FACTOR).toInt = ((n / 20 : Nat) : Int)) &&
  decide ((F32.mul (F32.ofInt (-(n : Int))) SLOW_FACTOR).toInt = -((n / 20 : Nat) : Int))

/-- The test `slowFactorAgrees` on the `k` operands `lo .. lo + k - 1`. -/
def slowFactorAgreesFrom (lo : Nat) : Nat → Bool
  | 0 => true
  | k + 1 => slowFactorAgrees (lo + k) && slowFactorAgreesFrom lo k

/-- The invariant of the session: the phase invariant and the height range. -/
def SessionInv (s : State) : Prop :=
  PhaseInv s ∧ 0 ≤ s.altura ∧ s.altura ≤ 100

instance (s : State) : Decidable (SessionInv s) := by unfold SessionInv; infer_instance

/-! ## Basic lemmas -/

/-- The significand of `SLOW_FACTOR` has 24 bits and is the integer nearest to
`2^28 / 20`; that of `GREEN_SCALE` has 24 bits and is the integer nearest to
`65535 * 2^14 / 100`. -/
theorem f32_constants_nearest :
    (8388608 ≤ SLOW_FACTOR.sig ∧ SLOW_FACTOR.sig < 16777216 ∧
      2 * ((SLOW_FACTOR.sig : Int) * 20 - 2 ^ 28).natAbs ≤ 20) ∧
    (8388608 ≤ GREEN_SCALE.sig ∧ GREEN_SCALE.sig < 16777216 ∧
      2 * ((GREEN_SCALE.sig : Int) * 100 - 65535 * 2 ^ 14).natAbs ≤ 100) := by
  decide


theorem clampTo_bounds (c hi : Int) (h : 0 ≤ hi) : 0 ≤ clampTo c hi ∧ clampTo c hi ≤ hi := by
  simp only [clampTo]
  constructor <;> split_ifs <;> omega

theorem analogToCursor_bounds (x y : Nat) :
    0 ≤ (analogToCursor x y).1 ∧ (analogToCursor x y).1 ≤ 120 ∧
    0 ≤ (analogToCursor x y).2 ∧ (analogToCursor x y).2 ≤ 56 := by
  have hx := clampTo_bounds
    ((DISPLAY_WIDTH - SQUARE_SIZE) / 2 -
      (F32.mul (F32.ofInt (-((y : Int) - 2048))) SLOW_FACTOR).toInt) 120 (by norm_num)
  have hy := clampTo_bounds
    ((DISPLAY_HEIGHT - SQUARE_SIZE) / 2 -
      (F32.mul (F32.ofInt ((x : Int) - 2048)) SLOW_FACTOR).toInt) 56 (by norm_num)
  have e1 : DISPLAY_WIDTH - SQUARE_SIZE = 120 := by decide
  have e2 : DISPLAY_HEIGHT - SQUARE_SIZE = 56 := by decide
  simp only [analogToCursor, e1, e2]
  exact ⟨hx.1, hx.2, hy.1, hy.2⟩

/-- `update_pwm` writes the three PWM levels and nothing else. -/
theorem update_pwm_frame (s : State) (x y : Nat) :
    ∃ r g b, update_pwm s x y = { s with red_level := r, green_level := g, blue_level := b } := by
  simp only [update_pwm]
  split_ifs
  · exact ⟨s.red_level, s.green_level, s.blue_level, rfl⟩
  · exact ⟨_, _, _, rfl⟩
  · exact ⟨_, _, _, rfl⟩

theorem targetInSquare_eq (s : State) :
    targetInSquare s = decide (Contains s.cursor_x s.cursor_y s.alvo_x s.alvo_y) := by
  simp only [targetInSquare, Contains, SQUARE_SIZE, ge_iff_le, Bool.decide_and, Bool.and_assoc]

/-- The state after the branch `else if (local_ok)`: the samples are stored, the
cursor is the transform of the samples, `in_position` is the containment test,
and the capture fires when armed, not yet acquired and contained. -/
theorem positioningBody_spec (s : State) (i : TickIn) :
    ∃ r g b,
      positioningBody s i =
        { s with
          adc_value_x := i.adc_x % 65536
          adc_value_y := i.adc_y % 65536
          cursor_x := (analogToCursor (i.adc_x % 65536) (i.adc_y % 65536)).1
          cursor_y := (analogToCursor (i.adc_x % 65536) (i.adc_y % 65536)).2
          red_level := r
          green_level := g
          blue_level := b
          in_position :=
            decide (Contains (analogToCursor (i.adc_x % 65536) (i.adc_y % 65536)).1
              (analogToCursor (i.adc_x % 65536) (i.adc_y % 65536)).2 s.alvo_x s.alvo_y)
          target_acquired := s.target_acquired ||
            (s.capture_mode &&
              decide (Contains (analogToCursor (i.adc_x % 65536) (i.adc_y % 65536)).1
                (analogToCursor (i.adc_x % 65536) (i.adc_y % 65536)).2 s.alvo_x s.alvo_y))
          capture_mode := s.capture_mode &&
            (s.target_acquired ||
              !decide (Contains (analogToCursor (i.adc_x % 65536) (i.adc_y % 65536)).1
                (analogToCursor (i.adc_x % 65536) (i.adc_y % 65536)).2 s.alvo_x s.alvo_y)) } := by
  obtain ⟨r, g, b, h⟩ := update_pwm_frame
    { s with adc_value_x := i.adc_x % 65536, adc_value_y := i.adc_y % 65536,
             cursor_x := (analogToCursor (i.adc_x % 65536) (i.adc_y % 65536)).1,
             cursor_y := (analogToCursor (i.adc_x % 65536) (i.adc_y % 65536)).2 }
    (i.adc_x % 65536) (i.adc_y % 65536)
  refine ⟨r, g, b, ?_⟩
  simp only [positioningBody, h, targetInSquare_eq]
  generalize decide (Contains (analogToCursor (i.adc_x % 65536) (i.adc_y % 65536)).1
      (analogToCursor (i.adc_x % 65536) (i.adc_y % 65536)).2 s.alvo_x s.alvo_y) = hit
  cases hc : s.capture_mode <;> cases ht : s.target_acquired <;> cases hit <;> simp [hc, ht]


/-- What an accepted call of `debounce` returns: true, with the clock reading
stored. -/
theorem debounce_accepted (t : Nat) (p : Bool) (last : Nat) (h : (debounce t p last).1 = true) :
    debounce t p last = (true, t % 4294967296) := by
  simp only [debounce] at h ⊢
  split_ifs at h ⊢ with hlt
  exact Prod.ext h rfl

/-- An accepted confirm press runs `confirmBody` on the state with the debounce
stamp of the joystick button updated; the height buttons are not looked at. -/
theorem gpio_callback_accepted (s : State) (i : CallbackIn) (h : AcceptedConfirm s i) :
    gpio_callback s i =
      confirmBody { s with last_time_joystick := i.debounce_time % 4294967296 } i := by
  obtain ⟨hg, hd⟩ := h
  have hd2 := debounce_accepted _ _ _ hd
  have hA : ¬ (JOYSTICK_PB = BUTTON_A_PIN) := by decide
  have hB : ¬ (JOYSTICK_PB = BUTTON_B_PIN) := by decide
  simp only [gpio_callback, heightButtons, hg, hd2, if_true, hA, hB, if_false]
  split_ifs <;> rfl

/-! ## Lemmas on the branches of the main loop and of the callback -/

/-- With the reveal over, the height confirmed and `local_ok` set, the loop
iteration runs the branch `else if (local_ok)`. -/
theorem tick_positioning (s : State) (i : TickIn)
    (hrev : s.exibir_alvo = false) (hok : s.altura_ok = true) (hloc : s.local_ok = true) :
    tick s i = positioningBody s i := by
  simp [tick, hrev, hok, hloc]

/-- The cooldown branch of the loop is taken exactly in the states with the
height confirmed, `local_ok` clear and `target_acquired` set. -/
theorem tick_cooldown (s : State) (i : TickIn)
    (hrev : s.exibir_alvo = false) (hok : s.altura_ok = true) (hloc : s.local_ok = false)
    (hacq : s.target_acquired = true) :
    tick s i = respawnTick s i.rand1 i.rand2 i.rand3 := by
  simp [tick, hrev, hok, hloc, hacq]

/-- The acquired state of the worked session is reachable. -/
theorem runAcquired_reachable : Reachable runAcquired :=
  .tick _ _ (.press _ _ (.tick _ _ (.tick _ _ (.press _ _ (.init 50 30 0)))))

/-- An accepted confirm press in an Acquired state whose `in_position` flag is
set takes the capture-toggle branch: no respawn. -/
theorem confirm_in_acquired_aligned (s : State) (i : CallbackIn)
    (hacq : Acquired s) (hin : s.in_position = true) (hacc : AcceptedConfirm s i) :
    gpio_callback s i =
      { s with
        last_time_joystick := i.debounce_time % 4294967296
        capture_mode := !s.capture_mode
        pwm_enabled := s.capture_mode } := by
  obtain ⟨hok, hloc, hrev, ht⟩ := hacq
  rw [gpio_callback_accepted s i hacc]
  cases hc : s.capture_mode <;> simp [confirmBody, hok, hloc, hin, hc]

/-- An accepted confirm press in an Acquired state whose `in_position` flag is
clear performs the respawn of lines 150-161. -/
theorem confirm_in_acquired_away (s : State) (i : CallbackIn)
    (hacq : Acquired s) (hin : s.in_position = false) (hacc : AcceptedConfirm s i) :
    gpio_callback s i =
      respawnPress { s with last_time_joystick := i.debounce_time % 4294967296 }
        i.rand1 i.rand2 i.rand3 := by
  obtain ⟨hok, hloc, hrev, ht⟩ := hacq
  rw [gpio_callback_accepted s i hacc]
  simp [confirmBody, hok, hloc, hin, ht]

/-- A loop iteration in an Acquired state runs the positioning branch and
stays Acquired: target, height and `pwm_enabled` are kept. -/
theorem tick_in_acquired (s : State) (i : TickIn) (hacq : Acquired s) :
    Acquired (tick s i) ∧ (tick s i).alvo_x = s.alvo_x ∧ (tick s i).alvo_y = s.alvo_y ∧
      (tick s i).alvo_altura = s.alvo_altura ∧ (tick s i).altura = s.altura ∧
      (tick s i).pwm_enabled = s.pwm_enabled := by
  obtain ⟨hok, hloc, hrev, ht⟩ := hacq
  obtain ⟨r, g, b, h⟩ := positioningBody_spec s i
  rw [tick_positioning s i hrev hok hloc, h]
  simp [Acquired, hok, hloc, hrev, ht]

/-- The two respawn paths differ in the cursor only. -/
theorem respawnPress_eq_respawnTick (s : State) (r1 r2 r3 : Nat) :
    respawnPress s r1 r2 r3 = { respawnTick s r1 r2 r3 with cursor_x := 64, cursor_y := 32 } := by
  simp [respawnPress, respawnTick, DISPLAY_WIDTH, DISPLAY_HEIGHT]

theorem respawnPress_post (s : State) (r1 r2 r3 : Nat) : RespawnPost (respawnPress s r1 r2 r3) := by
  unfold RespawnPost respawnPress
  dsimp only [DISPLAY_WIDTH, DISPLAY_HEIGHT]
  refine ⟨⟨?_, ?_⟩, ⟨?_, ?_⟩, ⟨?_, ?_⟩, rfl, rfl, rfl, rfl, rfl, rfl, rfl⟩ <;> omega

theorem respawnTick_post (s : State) (r1 r2 r3 : Nat) : RespawnPost (respawnTick s r1 r2 r3) := by
  unfold RespawnPost respawnTick
  dsimp only [DISPLAY_WIDTH, DISPLAY_HEIGHT]
  refine ⟨⟨?_, ?_⟩, ⟨?_, ?_⟩, ⟨?_, ?_⟩, rfl, rfl, rfl, rfl, rfl, rfl, rfl⟩ <;> omega

/-- The confirm press reaches the respawn of lines 150-161 exactly through the
third branch: height confirmed, not (`in_position` and `local_ok`), and
`target_acquired`. -/
theorem gpio_callback_respawn (s : State) (i : CallbackIn)
    (hok : s.altura_ok = true) (hnot : (s.in_position && s.local_ok) = false)
    (hacq : s.target_acquired = true) (hacc : AcceptedConfirm s i) :
    gpio_callback s i =
      respawnPress { s with last_time_joystick := i.debounce_time % 4294967296 }
        i.rand1 i.rand2 i.rand3 := by
  rw [gpio_callback_accepted s i hacc]
  simp only [confirmBody, hok, hnot, hacq]
  simp

/-- The acquired state with the joystick released is reachable. -/
theorem runAcquiredAway_reachable : Reachable runAcquiredAway :=
  .tick _ _ runAcquired_reachable

/-! ## The claims -/

/-- C1: in a loop iteration that runs the positioning branch, for all raw
samples (stored as 16-bit values) the new cursor is the analog-to-cursor
transform of the samples and satisfies `0 <= cursor_x <= DISPLAY_WIDTH -
SQUARE_SIZE = 120` and `0 <= cursor_y <= DISPLAY_HEIGHT - SQUARE_SIZE = 56`. -/
theorem C1_cursor_clamped (s : State) (i : TickIn)
    (hrev : s.exibir_alvo = false) (hok : s.altura_ok = true) (hloc : s.local_ok = true) :
    ((tick s i).cursor_x, (tick s i).cursor_y)
        = analogToCursor (i.adc_x % 65536) (i.adc_y % 65536) ∧
      0 ≤ (tick s i).cursor_x ∧ (tick s i).cursor_x ≤ DISPLAY_WIDTH - SQUARE_SIZE ∧
      0 ≤ (tick s i).cursor_y ∧ (tick s i).cursor_y ≤ DISPLAY_HEIGHT - SQUARE_SIZE ∧
      DISPLAY_WIDTH - SQUARE_SIZE = 120 ∧ DISPLAY_HEIGHT - SQUARE_SIZE = 56 := by
  obtain ⟨r, g, b, h⟩ := positioningBody_spec s i
  have hb := analogToCursor_bounds (i.adc_x % 65536) (i.adc_y % 65536)
  have e1 : DISPLAY_WIDTH - SQUARE_SIZE = 120 := by decide
  have e2 : DISPLAY_HEIGHT - SQUARE_SIZE = 56 := by decide
  rw [tick_positioning s i hrev hok hloc, h, e1, e2]
  exact ⟨rfl, hb.1, hb.2.1, hb.2.2.1, hb.2.2.2, rfl, rfl⟩

/-- C1 at the largest 16-bit samples, from the positioning state of the worked
session. -/
theorem C1_cursor_clamped_witness :
    ((tick runPositioning (tickAt 4010 65535 65535)).cursor_x,
        (tick runPositioning (tickAt 4010 65535 65535)).cursor_y)
        = analogToCursor ((tickAt 4010 65535 65535).adc_x % 65536)
            ((tickAt 4010 65535 65535).adc_y % 65536) ∧
      0 ≤ (tick runPositioning (tickAt 4010 65535 65535)).cursor_x ∧
      (tick runPositioning (tickAt 4010 65535 65535)).cursor_x ≤ DISPLAY_WIDTH - SQUARE_SIZE ∧
      0 ≤ (tick runPositioning (tickAt 4010 65535 65535)).cursor_y ∧
      (tick runPositioning (tickAt 4010 65535 65535)).cursor_y ≤ DISPLAY_HEIGHT - SQUARE_SIZE ∧
      DISPLAY_WIDTH - SQUARE_SIZE = 120 ∧ DISPLAY_HEIGHT - SQUARE_SIZE = 56 :=
  C1_cursor_clamped runPositioning (tickAt 4010 65535 65535) (by decide) (by decide) (by decide)

/-- C2: in a state with `altura_ok` false, an accepted confirm press sets
`altura_ok`, `local_ok`, `exibir_alvo` and stores the clock reading in
`exibir_alvo_start_time` if and only if `altura == alvo_altura`; when the
heights match nothing else changes, and when they differ the whole state is
left as it was, apart from the debounce stamp of the button. -/
theorem C2_confirm_height (s : State) (i : CallbackIn)
    (hphase : s.altura_ok = false) (hacc : AcceptedConfirm s i) :
    (((gpio_callback s i).altura_ok = true ∧ (gpio_callback s i).local_ok = true ∧
        (gpio_callback s i).exibir_alvo = true ∧
        (gpio_callback s i).exibir_alvo_start_time = i.confirm_time % 4294967296)
      ↔ s.altura = s.alvo_altura) ∧
    (s.altura = s.alvo_altura →
      gpio_callback s i =
        { s with
          last_time_joystick := i.debounce_time % 4294967296
          altura_ok := true
          local_ok := true
          exibir_alvo := true
          exibir_alvo_start_time := i.confirm_time % 4294967296 }) ∧
    (s.altura ≠ s.alvo_altura →
      gpio_callback s i = { s with last_time_joystick := i.debounce_time % 4294967296 }) := by
  rw [gpio_callback_accepted s i hacc]
  by_cases hh : s.altura = s.alvo_altura
  · simp [confirmBody, hphase, hh]
  · simp [confirmBody, hphase, hh]

/-- C2 on the two scenarios of the specification: heights 0 and 0 (session
start of the worked session), and heights 5 and 7. -/
theorem C2_confirm_height_witness :
    ((((gpio_callback runInit (pressAt 1000)).altura_ok = true ∧
          (gpio_callback runInit (pressAt 1000)).local_ok = true ∧
          (gpio_callback runInit (pressAt 1000)).exibir_alvo = true ∧
          (gpio_callback runInit (pressAt 1000)).exibir_alvo_start_time
            = (pressAt 1000).confirm_time % 4294967296)
        ↔ runInit.altura = runInit.alvo_altura) ∧
      (runInit.altura = runInit.alvo_altura →
        gpio_callback runInit (pressAt 1000) =
          { runInit with
            last_time_joystick := (pressAt 1000).debounce_time % 4294967296
            altura_ok := true
            local_ok := true
            exibir_alvo := true
            exibir_alvo_start_time := (pressAt 1000).confirm_time % 4294967296 }) ∧
      (runInit.altura ≠ runInit.alvo_altura →
        gpio_callback runInit (pressAt 1000) =
          { runInit with last_time_joystick := (pressAt 1000).debounce_time % 4294967296 })) ∧
    runInit.altura = 0 ∧ runInit.alvo_altura = 0 ∧
    (gpio_callback runInit (pressAt 1000)).exibir_alvo = true ∧
    (gpio_callback { initState 50 30 7 with altura := 5 } (pressAt 1000)).altura_ok = false :=
  ⟨C2_confirm_height runInit (pressAt 1000) (by decide) (by decide),
    by decide, by decide, by decide, by decide⟩


/-- C3: in a Positioning state, for all raw samples, after the loop iteration
`target_acquired` holds if and only if `capture_mode` held before and the target
lies in the newly computed cursor square (bounds included), and `in_position`
holds if and only if the target lies in that square. -/
theorem C3_acquire_iff_armed_and_contained (s : State) (i : TickIn) (hpos : Positioning s) :
    ((tick s i).target_acquired = true ↔
      (s.capture_mode = true ∧
        ((tick s i).cursor_x ≤ s.alvo_x ∧ s.alvo_x ≤ (tick s i).cursor_x + 8 ∧
          (tick s i).cursor_y ≤ s.alvo_y ∧ s.alvo_y ≤ (tick s i).cursor_y + 8))) ∧
    ((tick s i).in_position = true ↔
      ((tick s i).cursor_x ≤ s.alvo_x ∧ s.alvo_x ≤ (tick s i).cursor_x + 8 ∧
        (tick s i).cursor_y ≤ s.alvo_y ∧ s.alvo_y ≤ (tick s i).cursor_y + 8)) ∧
    ((tick s i).cursor_x, (tick s i).cursor_y)
      = analogToCursor (i.adc_x % 65536) (i.adc_y % 65536) ∧
    (tick s i).alvo_x = s.alvo_x ∧ (tick s i).alvo_y = s.alvo_y := by
  obtain ⟨hok, hloc, hrev, hacq⟩ := hpos
  obtain ⟨r, g, b, h⟩ := positioningBody_spec s i
  rw [tick_positioning s i hrev hok hloc, h]
  simp [hacq, Contains]

/-- C3 on the scenarios of the specification: target `(50, 30)`; armed with the
cursor at `(46, 26)` the target is acquired, armed with the cursor at `(60, 28)`
it is not. -/
theorem C3_acquire_iff_armed_and_contained_witness :
    (((tick runArmed (tickAt 5010 2088 1768)).target_acquired = true ↔
        (runArmed.capture_mode = true ∧
          ((tick runArmed (tickAt 5010 2088 1768)).cursor_x ≤ runArmed.alvo_x ∧
            runArmed.alvo_x ≤ (tick runArmed (tickAt 5010 2088 1768)).cursor_x + 8 ∧
            (tick runArmed (tickAt 5010 2088 1768)).cursor_y ≤ runArmed.alvo_y ∧
            runArmed.alvo_y ≤ (tick runArmed (tickAt 5010 2088 1768)).cursor_y + 8))) ∧
      ((tick runArmed (tickAt 5010 2088 1768)).in_position = true ↔
        ((tick runArmed (tickAt 5010 2088 1768)).cursor_x ≤ runArmed.alvo_x ∧
          runArmed.alvo_x ≤ (tick runArmed (tickAt 5010 2088 1768)).cursor_x + 8 ∧
          (tick runArmed (tickAt 5010 2088 1768)).cursor_y ≤ runArmed.alvo_y ∧
          runArmed.alvo_y ≤ (tick runArmed (tickAt 5010 2088 1768)).cursor_y + 8)) ∧
      ((tick runArmed (tickAt 5010 2088 1768)).cursor_x,
          (tick runArmed (tickAt 5010 2088 1768)).cursor_y)
        = analogToCursor ((tickAt 5010 2088 1768).adc_x % 65536)
            ((tickAt 5010 2088 1768).adc_y % 65536) ∧
      (tick runArmed (tickAt 5010 2088 1768)).alvo_x = runArmed.alvo_x ∧
      (tick runArmed (tickAt 5010 2088 1768)).alvo_y = runArmed.alvo_y) ∧
    (runArmed.alvo_x, runArmed.alvo_y) = (50, 30) ∧ runArmed.capture_mode = true ∧
    ((tick runArmed (tickAt 5010 2088 1768)).cursor_x,
      (tick runArmed (tickAt 5010 2088 1768)).cursor_y) = (46, 26) ∧
    (tick runArmed (tickAt 5010 2088 1768)).target_acquired = true ∧
    ((tick runArmed (tickAt 5010 2048 2048)).cursor_x,
      (tick runArmed (tickAt 5010 2048 2048)).cursor_y) = (60, 28) ∧
    (tick runArmed (tickAt 5010 2048 2048)).target_acquired = false ∧
    (tick runArmed (tickAt 5010 2048 2048)).in_position = false :=
  ⟨C3_acquire_iff_armed_and_contained runArmed (tickAt 5010 2088 1768) (by decide),
    by decide, by decide, by decide, by decide, by decide, by decide, by decide⟩

/-- C4: in a Positioning state with `in_position` true, an accepted confirm
press flips `capture_mode`, sets `pwm_enabled` to the negation of the new
`capture_mode`, and changes nothing else apart from the debounce stamp of the
button. -/
theorem C4_confirm_toggles_capture (s : State) (i : CallbackIn)
    (hpos : Positioning s) (hin : s.in_position = true) (hacc : AcceptedConfirm s i) :
    gpio_callback s i =
        { s with
          last_time_joystick := i.debounce_time % 4294967296
          capture_mode := !s.capture_mode
          pwm_enabled := s.capture_mode } ∧
      (gpio_callback s i).capture_mode = !s.capture_mode ∧
      (gpio_callback s i).pwm_enabled = !(gpio_callback s i).capture_mode := by
  obtain ⟨hok, hloc, hrev, hacq⟩ := hpos
  rw [gpio_callback_accepted s i hacc]
  cases hc : s.capture_mode <;> simp [confirmBody, hok, hloc, hin, hc]

/-- C4 at the aligned state of the worked session: the press arms the capture
and disables the PWM. -/
theorem C4_confirm_toggles_capture_witness :
    (gpio_callback runAligned (pressAt 5000) =
        { runAligned with
          last_time_joystick := (pressAt 5000).debounce_time % 4294967296
          capture_mode := !runAligned.capture_mode
          pwm_enabled := runAligned.capture_mode } ∧
      (gpio_callback runAligned (pressAt 5000)).capture_mode = !runAligned.capture_mode ∧
      (gpio_callback runAligned (pressAt 5000)).pwm_enabled
        = !(gpio_callback runAligned (pressAt 5000)).capture_mode) ∧
    runAligned.capture_mode = false ∧
    (gpio_callback runAligned (pressAt 5000)).capture_mode = true ∧
    (gpio_callback runAligned (pressAt 5000)).pwm_enabled = false :=
  ⟨C4_confirm_toggles_capture runAligned (pressAt 5000) (by decide) (by decide) (by decide),
    by decide, by decide, by decide⟩


/-- C5 (evaluation at the failing input): in the Acquired state reached in the
worked session, where `in_position` is still set by the acquiring iteration, an
accepted confirm press does not respawn: `target_acquired`, `altura_ok` and
`local_ok` stay true, the target is kept, `capture_mode` becomes true and
`pwm_enabled` stays false. -/
theorem C5_confirm_in_acquired_no_respawn :
    Reachable runAcquired ∧ Acquired runAcquired ∧ runAcquired.in_position = true ∧
      AcceptedConfirm runAcquired (pressAt 6000) ∧
      (gpio_callback runAcquired (pressAt 6000)).target_acquired = true ∧
      (gpio_callback runAcquired (pressAt 6000)).altura_ok = true ∧
      (gpio_callback runAcquired (pressAt 6000)).local_ok = true ∧
      (gpio_callback runAcquired (pressAt 6000)).capture_mode = true ∧
      (gpio_callback runAcquired (pressAt 6000)).pwm_enabled = false ∧
      ((gpio_callback runAcquired (pressAt 6000)).alvo_x,
        (gpio_callback runAcquired (pressAt 6000)).alvo_y,
        (gpio_callback runAcquired (pressAt 6000)).alvo_altura) = (50, 30, 0) ∧
      ((pressAt 6000).rand1, (pressAt 6000).rand2, (pressAt 6000).rand3) = (1, 2, 3) :=
  ⟨runAcquired_reachable, by decide, by decide, by decide, by decide, by decide, by decide,
    by decide, by decide, by decide, by decide⟩

/-- C6 (evaluation at the failing input): in the reachable Acquired state of the
worked session the next loop iteration does not respawn: the state stays
Acquired, with the same target and `pwm_enabled` still false. -/
theorem C6_tick_in_acquired_no_respawn :
    Reachable runAcquired ∧ Acquired runAcquired ∧
      Acquired (tick runAcquired (tickAt 5020 2088 1768)) ∧
      (tick runAcquired (tickAt 5020 2088 1768)).target_acquired = true ∧
      (tick runAcquired (tickAt 5020 2088 1768)).altura_ok = true ∧
      (tick runAcquired (tickAt 5020 2088 1768)).local_ok = true ∧
      (tick runAcquired (tickAt 5020 2088 1768)).pwm_enabled = false ∧
      ((tick runAcquired (tickAt 5020 2088 1768)).alvo_x,
        (tick runAcquired (tickAt 5020 2088 1768)).alvo_y,
        (tick runAcquired (tickAt 5020 2088 1768)).alvo_altura) = (50, 30, 0) ∧
      ((tickAt 5020 2088 1768).rand1, (tickAt 5020 2088 1768).rand2,
        (tickAt 5020 2088 1768).rand3) = (1, 2, 3) :=
  ⟨runAcquired_reachable, by decide, by decide, by decide, by decide, by decide, by decide,
    by decide, by decide⟩

/-- C7 as stated fails: from the armed state of the worked session
(`capture_mode` true, `pwm_enabled` false), the iteration with the target inside
the cursor square acquires the target and clears `capture_mode`, but
`pwm_enabled` is still false afterwards. -/
theorem C7_counterexample :
    Positioning runArmed ∧ runArmed.capture_mode = true ∧ runArmed.pwm_enabled = false ∧
      Contains (tick runArmed (tickAt 5010 2088 1768)).cursor_x
        (tick runArmed (tickAt 5010 2088 1768)).cursor_y runArmed.alvo_x runArmed.alvo_y ∧
      ¬ (Acquired (tick runArmed (tickAt 5010 2088 1768)) ∧
          (tick runArmed (tickAt 5010 2088 1768)).capture_mode = false ∧
          (tick runArmed (tickAt 5010 2088 1768)).pwm_enabled = true) := by
  decide

/-- C7 (amended): in a Positioning state with `capture_mode` true and
`pwm_enabled` false, a loop iteration on which the target lies inside the cursor
square gives an Acquired state with `capture_mode` false and `pwm_enabled`
unchanged, that is still false. -/
theorem C7_acquire_keeps_pwm_disabled (s : State) (i : TickIn)
    (hpos : Positioning s) (harm : s.capture_mode = true) (hpwm : s.pwm_enabled = false)
    (hin : Contains (tick s i).cursor_x (tick s i).cursor_y s.alvo_x s.alvo_y) :
    Acquired (tick s i) ∧ (tick s i).capture_mode = false ∧
      (tick s i).pwm_enabled = false ∧ (tick s i).in_position = true := by
  obtain ⟨hok, hloc, hrev, hacq⟩ := hpos
  obtain ⟨r, g, b, h⟩ := positioningBody_spec s i
  rw [tick_positioning s i hrev hok hloc, h] at hin ⊢
  simp only at hin
  simp [Acquired, hok, hloc, hrev, hacq, harm, hpwm, hin]

/-- C7 (amended) at the armed state of the worked session. -/
theorem C7_acquire_keeps_pwm_disabled_witness :
    Acquired (tick runArmed (tickAt 5010 2088 1768)) ∧
      (tick runArmed (tickAt 5010 2088 1768)).capture_mode = false ∧
      (tick runArmed (tickAt 5010 2088 1768)).pwm_enabled = false ∧
      (tick runArmed (tickAt 5010 2088 1768)).in_position = true :=
  C7_acquire_keeps_pwm_disabled runArmed (tickAt 5010 2088 1768) (by decide) (by decide)
    (by decide) (by decide)

/-- C8 as stated fails: armed in Positioning with the target outside the cursor
square (`in_position` false), an accepted confirm press leaves `capture_mode`
true. -/
theorem C8_counterexample :
    Positioning runArmedAway ∧ runArmedAway.in_position = false ∧
      runArmedAway.capture_mode = true ∧ AcceptedConfirm runArmedAway (pressAt 6000) ∧
      ¬ (Positioning (gpio_callback runArmedAway (pressAt 6000)) ∧
          (gpio_callback runArmedAway (pressAt 6000)).capture_mode = false) := by
  decide

/-- C8 (amended): in a Positioning state with `in_position` false and
`capture_mode` true, an accepted confirm press changes nothing but the debounce
stamp of the button: the session stays in Positioning and `capture_mode` stays
true. -/
theorem C8_confirm_misaligned_is_noop (s : State) (i : CallbackIn)
    (hpos : Positioning s) (hin : s.in_position = false) (harm : s.capture_mode = true)
    (hacc : AcceptedConfirm s i) :
    gpio_callback s i = { s with last_time_joystick := i.debounce_time % 4294967296 } ∧
      Positioning (gpio_callback s i) ∧ (gpio_callback s i).capture_mode = true := by
  obtain ⟨hok, hloc, hrev, hacq⟩ := hpos
  rw [gpio_callback_accepted s i hacc]
  simp [confirmBody, Positioning, hok, hloc, hrev, hacq, hin, harm]

/-- C8 (amended) at the armed, misaligned state of the worked session. -/
theorem C8_confirm_misaligned_is_noop_witness :
    gpio_callback runArmedAway (pressAt 6000)
        = { runArmedAway with last_time_joystick := (pressAt 6000).debounce_time % 4294967296 } ∧
      Positioning (gpio_callback runArmedAway (pressAt 6000)) ∧
      (gpio_callback runArmedAway (pressAt 6000)).capture_mode = true :=
  C8_confirm_misaligned_is_noop runArmedAway (pressAt 6000) (by decide) (by decide) (by decide)
    (by decide)


/-- C9: each respawn (the one of the confirm press, lines 150-161, and the one
of the cooldown branch of the loop, lines 385-396) gives, from every pre-state
and for all generator outputs, a state with a valid target (`0 <= alvo_x < 128`,
`0 <= alvo_y < 64`, `0 <= alvo_altura <= 100`), `altura = 0`, `capture_mode`
false, `pwm_enabled` true and `altura_ok`, `local_ok`, `target_acquired`,
`in_position` all false; the same holds after two respawns in a row, in any
combination of the two paths, and for the calls of `gpio_callback` and `tick`
that take these branches. -/
theorem C9_respawn_postcondition (s : State) (r1 r2 r3 q1 q2 q3 : Nat) :
    RespawnPost (respawnPress s r1 r2 r3) ∧ RespawnPost (respawnTick s r1 r2 r3) ∧
      RespawnPost (respawnPress (respawnPress s r1 r2 r3) q1 q2 q3) ∧
      RespawnPost (respawnTick (respawnPress s r1 r2 r3) q1 q2 q3) ∧
      RespawnPost (respawnPress (respawnTick s r1 r2 r3) q1 q2 q3) ∧
      RespawnPost (respawnTick (respawnTick s r1 r2 r3) q1 q2 q3) ∧
      (∀ i : CallbackIn, s.altura_ok = true → (s.in_position && s.local_ok) = false →
        s.target_acquired = true → AcceptedConfirm s i → RespawnPost (gpio_callback s i)) ∧
      (∀ j : TickIn, s.exibir_alvo = false → s.altura_ok = true → s.local_ok = false →
        s.target_acquired = true → RespawnPost (tick s j)) := by
  refine ⟨respawnPress_post _ _ _ _, respawnTick_post _ _ _ _, respawnPress_post _ _ _ _,
    respawnTick_post _ _ _ _, respawnPress_post _ _ _ _, respawnTick_post _ _ _ _, ?_, ?_⟩
  · intro i hok hnot hacq hacc
    rw [gpio_callback_respawn s i hok hnot hacq hacc]
    exact respawnPress_post _ _ _ _
  · intro j hrev hok hloc hacq
    rw [tick_cooldown s j hrev hok hloc hacq]
    exact respawnTick_post _ _ _ _

/-- C9 at concrete states: the confirm press in the reachable Acquired state
with the joystick released, and the loop iteration in the same state with
`local_ok` cleared (the only kind of state in which the cooldown branch runs). -/
theorem C9_respawn_postcondition_witness :
    RespawnPost (gpio_callback runAcquiredAway (pressAt 6000)) ∧
      RespawnPost (tick { runAcquiredAway with local_ok := false } (tickAt 6000 2048 2048)) ∧
      RespawnPost (respawnTick (respawnPress runAcquiredAway 1 2 3) 4 5 6) :=
  ⟨(C9_respawn_postcondition runAcquiredAway 1 2 3 4 5 6).2.2.2.2.2.2.1 (pressAt 6000)
      (by decide) (by decide) (by decide) (by decide),
    (C9_respawn_postcondition { runAcquiredAway with local_ok := false } 1 2 3 4 5 6).2.2.2.2.2.2.2
      (tickAt 6000 2048 2048) (by decide) (by decide) (by decide) (by decide),
    (C9_respawn_postcondition runAcquiredAway 1 2 3 4 5 6).2.2.2.1⟩

/-- C10 (evaluation at the failing input): from the reachable Acquired state
with the joystick released and generator outputs 1, 2, 3, the respawn of the
confirm press leaves the cursor at `(64, 32)`, while the respawn of the cooldown
branch and the session start both put it at `(60, 28)`; the two respawns agree
on every other field. -/
theorem C10_respawn_cursor_differs :
    Reachable runAcquiredAway ∧ Acquired runAcquiredAway ∧
      AcceptedConfirm runAcquiredAway (pressAt 6000) ∧
      gpio_callback runAcquiredAway (pressAt 6000)
        = respawnPress { runAcquiredAway with last_time_joystick := 6000 } 1 2 3 ∧
      ((gpio_callback runAcquiredAway (pressAt 6000)).cursor_x,
        (gpio_callback runAcquiredAway (pressAt 6000)).cursor_y) = (64, 32) ∧
      ((respawnTick { runAcquiredAway with last_time_joystick := 6000 } 1 2 3).cursor_x,
        (respawnTick { runAcquiredAway with last_time_joystick := 6000 } 1 2 3).cursor_y)
        = (60, 28) ∧
      tick { runAcquiredAway with local_ok := false } (tickAt 6000 2048 2048)
        = respawnTick { runAcquiredAway with local_ok := false } 1 2 3 ∧
      ((tick { runAcquiredAway with local_ok := false } (tickAt 6000 2048 2048)).cursor_x,
        (tick { runAcquiredAway with local_ok := false } (tickAt 6000 2048 2048)).cursor_y)
        = (60, 28) ∧
      ((initState 1 2 3).cursor_x, (initState 1 2 3).cursor_y) = (60, 28) ∧
      respawnPress { runAcquiredAway with last_time_joystick := 6000 } 1 2 3
        ≠ respawnTick { runAcquiredAway with last_time_joystick := 6000 } 1 2 3 ∧
      respawnPress { runAcquiredAway with last_time_joystick := 6000 } 1 2 3
        = { respawnTick { runAcquiredAway with last_time_joystick := 6000 } 1 2 3 with
            cursor_x := 64, cursor_y := 32 } :=
  ⟨runAcquiredAway_reachable, by decide, by decide, by decide, by decide, by decide, by decide,
    by decide, by decide, by decide, by decide⟩


/-! ## Lemmas for the debounce, LED, transform and invariant claims -/

theorem truncQ_div20 (n : Int) : truncQ ((n : ℚ) * (1 / 20)) = Int.tdiv n 20 := by
  have h20 : ((n : ℚ) * (1 / 20)) = (n : ℚ) / ((20 : ℕ) : ℚ) := by push_cast; ring
  unfold truncQ
  rw [h20]
  rcases le_or_lt 0 n with hn | hn
  · have : (0 : ℚ) ≤ (n : ℚ) / ((20 : ℕ) : ℚ) := by positivity
    rw [if_pos this, Rat.floor_intCast_div_natCast, Int.tdiv_eq_ediv hn (by norm_num)]
    rfl
  · have hneg : ¬ ((0 : ℚ) ≤ (n : ℚ) / ((20 : ℕ) : ℚ)) := by
      rw [not_le]
      apply div_neg_of_neg_of_pos
      · exact_mod_cast hn
      · norm_num
    rw [if_neg hneg]
    have e : (n : ℚ) / ((20 : ℕ) : ℚ) = -((((-n : Int)) : ℚ) / ((20 : ℕ) : ℚ)) := by
      push_cast; ring
    rw [e, Int.ceil_neg, Rat.floor_intCast_div_natCast]
    have e2 : n = -(-n) := by omega
    conv_rhs => rw [e2, Int.neg_tdiv, Int.tdiv_eq_ediv (by omega) (by norm_num)]
    rfl


theorem slowFactorAgreesFrom_spec (lo k : Nat) (h : slowFactorAgreesFrom lo k = true) :
    ∀ m, lo ≤ m → m < lo + k → slowFactorAgrees m = true := by
  induction k with
  | zero => intro m h1 h2; omega
  | succ j ih =>
    intro m h1 h2
    simp only [slowFactorAgreesFrom, Bool.and_eq_true] at h
    rcases Nat.lt_or_ge m (lo + j) with hlt | hge
    · exact ih h.2 m h1 hlt
    · have : m = lo + j := by omega
      subst this
      exact h.1

set_option maxRecDepth 100000 in
theorem slowFactorAgrees_chunk0 : slowFactorAgreesFrom 0 256 = true := by decide

set_option maxRecDepth 100000 in
theorem slowFactorAgrees_chunk1 : slowFactorAgreesFrom 256 256 = true := by decide

set_option maxRecDepth 100000 in
theorem slowFactorAgrees_chunk2 : slowFactorAgreesFrom 512 256 = true := by decide

set_option maxRecDepth 100000 in
theorem slowFactorAgrees_chunk3 : slowFactorAgreesFrom 768 256 = true := by decide

set_option maxRecDepth 100000 in
theorem slowFactorAgrees_chunk4 : slowFactorAgreesFrom 1024 256 = true := by decide

set_option maxRecDepth 100000 in
theorem slowFactorAgrees_chunk5 : slowFactorAgreesFrom 1280 256 = true := by decide

set_option maxRecDepth 100000 in
theorem slowFactorAgrees_chunk6 : slowFactorAgreesFrom 1536 256 = true := by decide

set_option maxRecDepth 100000 in
theorem slowFactorAgrees_chunk7 : slowFactorAgreesFrom 1792 256 = true := by decide

theorem slowFactorAgrees_chunk8 : slowFactorAgreesFrom 2048 1 = true := by decide

/-- On every operand of magnitude at most 2048 the single-precision product
with `0.05f`, truncated toward zero, is the quotient by 20 truncated toward
zero. -/
theorem slowFactor_trunc (n : Int) (h1 : -2048 ≤ n) (h2 : n ≤ 2048) :
    (F32.mul (F32.ofInt n) SLOW_FACTOR).toInt = Int.tdiv n 20 := by
  have key : ∀ m : Nat, m ≤ 2048 → slowFactorAgrees m = true := by
    intro m hm
    rcases Nat.lt_or_ge m 256 with h | h
    · exact slowFactorAgreesFrom_spec _ _ slowFactorAgrees_chunk0 m (by omega) (by omega)
    rcases Nat.lt_or_ge m 512 with h | h
    · exact slowFactorAgreesFrom_spec _ _ slowFactorAgrees_chunk1 m (by omega) (by omega)
    rcases Nat.lt_or_ge m 768 with h | h
    · exact slowFactorAgreesFrom_spec _ _ slowFactorAgrees_chunk2 m (by omega) (by omega)
    rcases Nat.lt_or_ge m 1024 with h | h
    · exact slowFactorAgreesFrom_spec _ _ slowFactorAgrees_chunk3 m (by omega) (by omega)
    rcases Nat.lt_or_ge m 1280 with h | h
    · exact slowFactorAgreesFrom_spec _ _ slowFactorAgrees_chunk4 m (by omega) (by omega)
    rcases Nat.lt_or_ge m 1536 with h | h
    · exact slowFactorAgreesFrom_spec _ _ slowFactorAgrees_chunk5 m (by omega) (by omega)
    rcases Nat.lt_or_ge m 1792 with h | h
    · exact slowFactorAgreesFrom_spec _ _ slowFactorAgrees_chunk6 m (by omega) (by omega)
    rcases Nat.lt_or_ge m 2048 with h | h
    · exact slowFactorAgreesFrom_spec _ _ slowFactorAgrees_chunk7 m (by omega) (by omega)
    · exact slowFactorAgreesFrom_spec _ _ slowFactorAgrees_chunk8 m (by omega) (by omega)
  rcases le_or_lt 0 n with hn | hn
  · obtain ⟨m, rfl⟩ := Int.eq_ofNat_of_zero_le hn
    have hk := key m (by omega)
    simp only [slowFactorAgrees, Bool.and_eq_true, decide_eq_true_eq] at hk
    rw [hk.1, Int.tdiv_eq_ediv (by omega) (by norm_num)]
    rfl
  · obtain ⟨m, hm⟩ := Int.eq_ofNat_of_zero_le (by omega : 0 ≤ -n)
    have hn2 : n = -(m : Int) := by omega
    subst hn2
    have hk := key m (by omega)
    simp only [slowFactorAgrees, Bool.and_eq_true, decide_eq_true_eq] at hk
    rw [hk.2, Int.neg_tdiv, Int.tdiv_eq_ediv (by omega) (by norm_num)]
    rfl


/-- The cursor computed by the program equals the reference transform on every
sample pair of the 12-bit range. -/
theorem analogToCursor_eq_reference (x y : Nat) (hx : x < 4096) (hy : y < 4096) :
    analogToCursor x y = referenceCursor x y := by
  have hX := slowFactor_trunc ((x : Int) - 2048) (by omega) (by omega)
  have hY := slowFactor_trunc (-((y : Int) - 2048)) (by omega) (by omega)
  have qX : truncQ (((x : ℚ) - 2048) * (1 / 20)) = Int.tdiv ((x : Int) - 2048) 20 := by
    rw [← truncQ_div20]; push_cast; rfl
  have qY : truncQ (-((y : ℚ) - 2048) * (1 / 20)) = Int.tdiv (-((y : Int) - 2048)) 20 := by
    rw [← truncQ_div20]; push_cast; rfl
  have e1 : (DISPLAY_WIDTH - SQUARE_SIZE) = 120 := by decide
  have e2 : (DISPLAY_HEIGHT - SQUARE_SIZE) = 56 := by decide
  simp only [analogToCursor, referenceCursor, hX, hY, qX, qY, e1, e2, clampTo, clampQ]
  refine Prod.ext ?_ ?_
  · simp only []
    generalize Int.tdiv (-((y : Int) - 2048)) 20 = a
    have : (120 : Int) / 2 = 60 := by norm_num
    rw [this]
    split_ifs <;> omega
  · simp only []
    generalize Int.tdiv ((x : Int) - 2048) 20 = b
    have : (56 : Int) / 2 = 28 := by norm_num
    rw [this]
    split_ifs <;> omega


/-- The phase invariant, flag by flag. -/
theorem phaseInv_iff (s : State) :
    PhaseInv s ↔
      (s.altura_ok = s.local_ok ∧ (s.exibir_alvo = true → s.altura_ok = true) ∧
        (s.target_acquired = true → s.altura_ok = true ∧ s.exibir_alvo = false) ∧
        ((s.altura_ok = false ∨ s.exibir_alvo = true) →
          s.capture_mode = false ∧ s.in_position = false)) := by
  unfold PhaseInv SettingHeight TransientTargetReveal Positioning Acquired
  cases s.altura_ok <;> cases s.local_ok <;> cases s.exibir_alvo <;>
    cases s.target_acquired <;> cases s.capture_mode <;> cases s.in_position <;> simp

theorem sessionInv_init (r1 r2 r3 : Nat) : SessionInv (initState r1 r2 r3) := by
  refine ⟨(phaseInv_iff _).2 ?_, ?_, ?_⟩ <;> simp [initState]

set_option linter.unnecessarySeqFocus false in
theorem sessionInv_tick (s : State) (i : TickIn) (h : SessionInv s) : SessionInv (tick s i) := by
  obtain ⟨hp, h0, h1⟩ := h
  rw [phaseInv_iff] at hp
  obtain ⟨r, g, b, hb⟩ := positioningBody_spec s i
  unfold SessionInv
  rw [phaseInv_iff]
  simp only [tick, hb, respawnTick]
  generalize decide (Contains (analogToCursor (i.adc_x % 65536) (i.adc_y % 65536)).1
      (analogToCursor (i.adc_x % 65536) (i.adc_y % 65536)).2 s.alvo_x s.alvo_y) = hit
  clear hb
  obtain ⟨ha, hb, hc, hd⟩ := hp
  cases hao : s.altura_ok <;> cases hlo : s.local_ok <;> simp_all <;>
    cases hex : s.exibir_alvo <;> cases hta : s.target_acquired <;> simp_all <;>
    split_ifs <;> simp_all


theorem sessionInv_confirmBody (s : State) (i : CallbackIn) (h : SessionInv s) :
    SessionInv (confirmBody s i) := by
  obtain ⟨hp, h0, h1⟩ := h
  rw [phaseInv_iff] at hp
  unfold SessionInv
  rw [phaseInv_iff]
  unfold confirmBody respawnPress
  obtain ⟨ha, hb, hc, hd⟩ := hp
  cases hcm : s.capture_mode <;> simp only [hcm, Bool.not_true, Bool.not_false] <;>
    split_ifs <;> simp_all

/-- The height buttons write `altura` and their two debounce stamps only, and
move `altura` by at most one step inside `0 .. 100`. -/
theorem heightButtons_frame (s : State) (i : CallbackIn) :
    ∃ a la lb,
      heightButtons s i = { s with altura := a, last_time_buttonA := la, last_time_buttonB := lb } ∧
      (a = s.altura ∨ (0 < s.altura ∧ a = s.altura - 1) ∨ (s.altura < 100 ∧ a = s.altura + 1)) := by
  unfold heightButtons
  have hAB : ¬ (BUTTON_A_PIN = BUTTON_B_PIN) := by decide
  by_cases hA : i.gpio = BUTTON_A_PIN
  · simp only [hA, hAB, if_true, if_false]
    split_ifs with h0 h1 h2
    · exact ⟨_, _, s.last_time_buttonB, rfl, Or.inr (Or.inl ⟨h2, rfl⟩)⟩
    · exact ⟨_, _, s.last_time_buttonB, rfl, Or.inl rfl⟩
    · exact ⟨_, _, s.last_time_buttonB, rfl, Or.inl rfl⟩
    · exact ⟨s.altura, s.last_time_buttonA, s.last_time_buttonB, rfl, Or.inl rfl⟩
  · simp only [hA, if_false]
    split_ifs with h0 h1 h2 h3
    · exact ⟨_, s.last_time_buttonA, _, rfl, Or.inr (Or.inr ⟨h3, rfl⟩)⟩
    · exact ⟨_, s.last_time_buttonA, _, rfl, Or.inl rfl⟩
    · exact ⟨_, s.last_time_buttonA, _, rfl, Or.inl rfl⟩
    · exact ⟨s.altura, s.last_time_buttonA, s.last_time_buttonB, rfl, Or.inl rfl⟩
    · exact ⟨s.altura, s.last_time_buttonA, s.last_time_buttonB, rfl, Or.inl rfl⟩

theorem sessionInv_heightButtons (s : State) (i : CallbackIn) (h : SessionInv s) :
    SessionInv (heightButtons s i) := by
  obtain ⟨a, la, lb, he, ha⟩ := heightButtons_frame s i
  obtain ⟨hp, h0, h1⟩ := h
  rw [he]
  exact ⟨hp, by show 0 ≤ a; omega, by show a ≤ 100; omega⟩

theorem sessionInv_gpio_callback (s : State) (i : CallbackIn) (h : SessionInv s) :
    SessionInv (gpio_callback s i) := by
  unfold gpio_callback
  apply sessionInv_heightButtons
  have hs : SessionInv { s with last_time_joystick :=
      (debounce i.debounce_time i.pin_high s.last_time_joystick).2 } := h
  dsimp only
  split_ifs
  · exact sessionInv_confirmBody _ _ hs
  · exact hs
  · exact h

/-- Every reachable state satisfies the session invariant. -/
theorem sessionInv_of_reachable (s : State) (h : Reachable s) : SessionInv s := by
  induction h with
  | init r1 r2 r3 => exact sessionInv_init r1 r2 r3
  | press s i _ ih => exact sessionInv_gpio_callback s i ih
  | tick s i _ ih => exact sessionInv_tick s i ih


/-- The function `debounce` on clock readings that have not wrapped since the
stored stamp. -/
theorem debounce_eq (t last : Nat) (p : Bool) (ht : t < 4294967296) (hl : last ≤ t) :
    debounce t p last = if t - last < 200 then (false, last) else (!p, t) := by
  have e1 : t % 4294967296 = t := Nat.mod_eq_of_lt ht
  have e2 : last % 4294967296 = last := Nat.mod_eq_of_lt (by omega)
  have e3 : (t + 4294967296 - last) % 4294967296 = t - last := by omega
  simp only [debounce, e1, e2, e3]

/-- Every accepted clock reading of a run lies at least 200 ms after the stamp
the run starts with. -/
theorem debounceSeq_after_stamp (calls : List (Nat × Bool)) :
    ∀ last : Nat, calls.Pairwise (fun a b => a.1 ≤ b.1) →
      (∀ c ∈ calls, c.1 < 4294967296) → (∀ c ∈ calls, last ≤ c.1) →
      ∀ a ∈ debounceSeq last calls, last + 200 ≤ a := by
  induction calls with
  | nil => intro last _ _ _ a ha; simp [debounceSeq] at ha
  | cons c rest ih =>
    obtain ⟨t, p⟩ := c
    intro last hs hb hl a ha
    have ht : t < 4294967296 := hb (t, p) (List.mem_cons_self _ _)
    have hlt : last ≤ t := hl (t, p) (List.mem_cons_self _ _)
    have hs' := (List.pairwise_cons.1 hs)
    have hb' : ∀ c ∈ rest, c.1 < 4294967296 := fun c hc => hb c (List.mem_cons_of_mem _ hc)
    have hl' : ∀ c ∈ rest, last ≤ c.1 := fun c hc => hl c (List.mem_cons_of_mem _ hc)
    have ht' : ∀ c ∈ rest, t ≤ c.1 := fun c hc => hs'.1 c hc
    simp only [debounceSeq, debounce_eq t last p ht hlt] at ha
    by_cases hd : t - last < 200
    · simp only [hd, if_true, Bool.false_eq_true, if_false] at ha
      exact ih last hs'.2 hb' hl' a ha
    · simp only [hd, if_false] at ha
      split_ifs at ha
      · rcases List.mem_cons.1 ha with h | h
        · omega
        · have := ih t hs'.2 hb' ht' a h
          omega
      · have := ih t hs'.2 hb' ht' a ha
        omega

/-- Any two accepted clock readings of a run are at least 200 ms apart. -/
theorem debounceSeq_spaced (calls : List (Nat × Bool)) :
    ∀ last : Nat, calls.Pairwise (fun a b => a.1 ≤ b.1) →
      (∀ c ∈ calls, c.1 < 4294967296) → (∀ c ∈ calls, last ≤ c.1) →
      (debounceSeq last calls).Pairwise (fun a b => a + 200 ≤ b) := by
  induction calls with
  | nil => intro last _ _ _; simp [debounceSeq]
  | cons c rest ih =>
    obtain ⟨t, p⟩ := c
    intro last hs hb hl
    have ht : t < 4294967296 := hb (t, p) (List.mem_cons_self _ _)
    have hlt : last ≤ t := hl (t, p) (List.mem_cons_self _ _)
    have hs' := (List.pairwise_cons.1 hs)
    have hb' : ∀ c ∈ rest, c.1 < 4294967296 := fun c hc => hb c (List.mem_cons_of_mem _ hc)
    have hl' : ∀ c ∈ rest, last ≤ c.1 := fun c hc => hl c (List.mem_cons_of_mem _ hc)
    have ht' : ∀ c ∈ rest, t ≤ c.1 := fun c hc => hs'.1 c hc
    simp only [debounceSeq, debounce_eq t last p ht hlt]
    by_cases hd : t - last < 200
    · simp only [hd, if_true, Bool.false_eq_true, if_false]
      exact ih last hs'.2 hb' hl'
    · simp only [hd, if_false]
      split_ifs
      · exact List.pairwise_cons.2
          ⟨fun a ha => debounceSeq_after_stamp rest t hs'.2 hb' ht' a ha, ih t hs'.2 hb' ht'⟩
      · exact ih t hs'.2 hb' ht'

/-- C11 as stated fails: with the stamp 0 of session start, two presses at 50 ms
and 100 ms (less than 200 ms apart, line active) are both rejected, and of two
presses at 50 ms and 300 ms (at least 200 ms apart) only the second is
accepted. -/
theorem C11_counterexample :
    (initState 1 2 3).last_time_joystick = 0 ∧
      (debounce 50 false 0).1 = false ∧
      (debounce 100 false (debounce 50 false 0).2).1 = false ∧
      (debounce 300 false (debounce 50 false 0).2).1 = true := by
  decide

/-- C11 (amended): the three stamps are 0 at session start, and from stamp 0,
for clock readings `200 <= t1 <= t2 < 2^32` with the line active at both calls:
if `t2 - t1 < 200` the first call returns true and the second false (exactly
one accepted), and if `t2 - t1 >= 200` both calls return true. -/
theorem C11_two_presses (t1 t2 : Nat) (h1 : 200 ≤ t1) (h12 : t1 ≤ t2)
    (h2 : t2 < 4294967296) :
    (∀ r1 r2 r3 : Nat, (initState r1 r2 r3).last_time_joystick = 0 ∧
      (initState r1 r2 r3).last_time_buttonA = 0 ∧ (initState r1 r2 r3).last_time_buttonB = 0) ∧
    (t2 - t1 < 200 →
      (debounce t1 false 0).1 = true ∧ (debounce t2 false (debounce t1 false 0).2).1 = false) ∧
    (200 ≤ t2 - t1 →
      (debounce t1 false 0).1 = true ∧ (debounce t2 false (debounce t1 false 0).2).1 = true) := by
  have e1 : debounce t1 false 0 = (true, t1) := by
    rw [debounce_eq t1 0 false (by omega) (by omega)]
    have : ¬ (t1 - 0 < 200) := by omega
    rw [if_neg this]
    rfl
  rw [e1]
  refine ⟨fun _ _ _ => ⟨rfl, rfl, rfl⟩, ?_, ?_⟩
  · intro h
    rw [debounce_eq t2 t1 false h2 h12]
    simp [h]
  · intro h
    rw [debounce_eq t2 t1 false h2 h12]
    have : ¬ (t2 - t1 < 200) := by omega
    rw [if_neg this]
    exact ⟨rfl, rfl⟩

/-- C11 (amended) at `t1 = 1000`, `t2 = 1100` (one accepted) and at `t1 = 1000`,
`t2 = 1200` (both accepted). -/
theorem C11_two_presses_witness :
    ((debounce 1000 false 0).1 = true ∧
        (debounce 1100 false (debounce 1000 false 0).2).1 = false) ∧
      ((debounce 1000 false 0).1 = true ∧
        (debounce 1200 false (debounce 1000 false 0).2).1 = true) :=
  ⟨(C11_two_presses 1000 1100 (by decide) (by decide) (by decide)).2.1 (by decide),
    (C11_two_presses 1000 1200 (by decide) (by decide) (by decide)).2.2 (by decide)⟩

/-- C12: for every sequence of calls of `debounce` on one button, from the stamp
0 of session start, with non-decreasing clock readings below `2^32` and
arbitrary line levels, any two calls that return true have clock readings at
least 200 ms apart. -/
theorem C12_accepted_presses_spaced (calls : List (Nat × Bool))
    (hsorted : calls.Pairwise (fun a b => a.1 ≤ b.1))
    (hclock : ∀ c ∈ calls, c.1 < 4294967296) :
    (debounceSeq 0 calls).Pairwise (fun a b => a + 200 ≤ b) :=
  debounceSeq_spaced calls 0 hsorted hclock (fun _ _ => Nat.zero_le _)

/-- C12 on a run of seven calls: the accepted readings are 250, 460 and 900 (the
call at 660 finds the line inactive, and the call at 700 comes 40 ms after it). -/
theorem C12_accepted_presses_spaced_witness :
    debounceSeq 0 [(100, false), (250, false), (300, false), (460, false), (660, true),
        (700, false), (900, false)] = [250, 460, 900] ∧
      (debounceSeq 0 [(100, false), (250, false), (300, false), (460, false), (660, true),
        (700, false), (900, false)]).Pairwise (fun a b => a + 200 ≤ b) :=
  ⟨by decide,
    C12_accepted_presses_spaced
      [(100, false), (250, false), (300, false), (460, false), (660, true), (700, false),
        (900, false)]
      (by decide) (by decide)⟩


/-- The cursor after an iteration that runs the positioning branch is the
transform of the stored samples. -/
theorem tick_cursor_eq (s : State) (i : TickIn)
    (hrev : s.exibir_alvo = false) (hok : s.altura_ok = true) (hloc : s.local_ok = true) :
    ((tick s i).cursor_x, (tick s i).cursor_y)
      = analogToCursor (i.adc_x % 65536) (i.adc_y % 65536) := by
  obtain ⟨r, g, b, h⟩ := positioningBody_spec s i
  rw [tick_positioning s i hrev hok hloc, h]

/-- Up to deflection 2038 (samples `10 .. 4086`) the red level is the linear
ramp `d * 65535 / 2038` above the dead zone; it does not decrease with `d`, the
absolute deflection, and reaches 65535 at `d = 2038`. -/
theorem axisIntensity_ramp (x : Nat) (h1 : 10 ≤ x) (h2 : x ≤ 4086) :
    axisIntensity x DEADZONE_X
      = if 10 < ((x : Int) - 2048).natAbs then ((x : Int) - 2048).natAbs * 65535 / 2038 else 0 := by
  have e : toInt16 ((x : Int) - 2048) = (x : Int) - 2048 := by
    unfold toInt16
    simp only []
    split_ifs <;> omega
  have hd : ((x : Int) - 2048).natAbs ≤ 2038 := by omega
  unfold axisIntensity DEADZONE_X
  simp only [e]
  have e2 : ((2048 : Int) - 10).toNat = 2038 := by decide
  rw [e2]
  by_cases hc : 10 < ((x : Int) - 2048).natAbs
  · have hc2 : (((x : Int) - 2048).natAbs : Int) > 10 := by omega
    rw [if_pos hc2, if_pos hc]
    have b1 : ((x : Int) - 2048).natAbs * 65535 < 4294967296 := by omega
    rw [Nat.mod_eq_of_lt b1]
    apply Nat.mod_eq_of_lt
    have : ((x : Int) - 2048).natAbs * 65535 / 2038 ≤ 2038 * 65535 / 2038 :=
      Nat.div_le_div_right (Nat.mul_le_mul_right _ hd)
    omega
  · have hc2 : ¬ ((((x : Int) - 2048).natAbs : Int) > 10) := by omega
    rw [if_neg hc2, if_neg hc]

/-- C13 as stated fails: with stamp 0, a call at 1000 ms that finds the line
inactive returns false and still stores 1000 as the new stamp. -/
theorem C13_counterexample :
    (debounce 1000 true 0).1 = false ∧ (debounce 1000 true 0).2 = 1000 ∧
      (debounce 1000 true 0).2 ≠ 0 := by
  decide

/-- C13 (amended): a call made less than 200 ms (modulo `2^32`) after the stored
stamp returns false and leaves the stamp unchanged; every other call stores the
clock reading, whether it returns true (line active) or false (line inactive);
in particular every call that returns true stores the clock reading. -/
theorem C13_stamp_update (last t : Nat) (pin_high : Bool) :
    ((t % 4294967296 + 4294967296 - last % 4294967296) % 4294967296 < 200 →
      debounce t pin_high last = (false, last)) ∧
    (¬ ((t % 4294967296 + 4294967296 - last % 4294967296) % 4294967296 < 200) →
      debounce t pin_high last = (!pin_high, t % 4294967296)) ∧
    ((debounce t pin_high last).1 = true → (debounce t pin_high last).2 = t % 4294967296) := by
  refine ⟨?_, ?_, ?_⟩
  · intro h
    simp only [debounce, h, if_true]
  · intro h
    simp only [debounce, h, if_false]
  · intro h
    rw [debounce_accepted t pin_high last h]

/-- C13 (amended) on three calls: too early, line inactive, line active. -/
theorem C13_stamp_update_witness :
    debounce 1100 false 1000 = (false, 1000) ∧ debounce 1300 true 1000 = (false, 1300) ∧
      debounce 1300 false 1000 = (true, 1300) ∧ (debounce 1300 false 1000).2 = 1300 :=
  ⟨(C13_stamp_update 1000 1100 false).1 (by decide),
    (C13_stamp_update 1000 1300 true).2.1 (by decide),
    (C13_stamp_update 1000 1300 false).2.1 (by decide),
    (C13_stamp_update 1000 1300 false).2.2 (by decide)⟩

/-- C14 (evaluation at the failing input): with PWM enabled the red level is 0
at deflection 10 and 353 at deflection 11, reaches 65535 at deflection 2038
(sample 4086), and then wraps instead of saturating: 31 at deflection 2039
(sample 4087), 288 at sample 4095 and 320 at sample 0. -/
theorem C14_red_level_wraps :
    runAligned.pwm_enabled = true ∧
      (update_pwm runAligned 2058 2048).red_level = 0 ∧
      (update_pwm runAligned 2038 2048).red_level = 0 ∧
      (update_pwm runAligned 2059 2048).red_level = 353 ∧
      (update_pwm runAligned 2037 2048).red_level = 353 ∧
      (update_pwm runAligned 4086 2048).red_level = 65535 ∧
      (update_pwm runAligned 4087 2048).red_level = 31 ∧
      (update_pwm runAligned 4095 2048).red_level = 288 ∧
      (update_pwm runAligned 0 2048).red_level = 320 ∧
      (tick runAligned (tickAt 4020 4087 2048)).red_level = 31 := by
  decide

/-- C15 as stated fails: in the armed state of the worked session `pwm_enabled`
is false and the prior levels are 1286, 0, 9003; after `update_pwm` the red and
blue levels are still 1286 and 9003, not 0. -/
theorem C15_counterexample :
    runArmed.pwm_enabled = false ∧
      (runArmed.red_level, runArmed.green_level, runArmed.blue_level) = (1286, 0, 9003) ∧
      ((update_pwm runArmed 2048 2048).red_level, (update_pwm runArmed 2048 2048).green_level,
        (update_pwm runArmed 2048 2048).blue_level) = (1286, 0, 9003) ∧
      ¬ ((update_pwm runArmed 2048 2048).red_level = 0 ∧
          (update_pwm runArmed 2048 2048).green_level = 0 ∧
          (update_pwm runArmed 2048 2048).blue_level = 0) := by
  decide

/-- C15 (amended): when `pwm_enabled` is false, for all samples and all prior
levels `update_pwm` changes nothing: the red, green and blue levels after the
call are the prior levels. -/
theorem C15_disabled_pwm_keeps_levels (s : State) (x y : Nat) (h : s.pwm_enabled = false) :
    update_pwm s x y = s ∧ (update_pwm s x y).red_level = s.red_level ∧
      (update_pwm s x y).green_level = s.green_level ∧
      (update_pwm s x y).blue_level = s.blue_level := by
  have e : update_pwm s x y = s := by simp [update_pwm, h]
  rw [e]
  exact ⟨rfl, rfl, rfl, rfl⟩

/-- C15 (amended) at the armed state of the worked session. -/
theorem C15_disabled_pwm_keeps_levels_witness :
    update_pwm runArmed 4095 0 = runArmed ∧
      (update_pwm runArmed 4095 0).red_level = runArmed.red_level ∧
      (update_pwm runArmed 4095 0).green_level = runArmed.green_level ∧
      (update_pwm runArmed 4095 0).blue_level = runArmed.blue_level :=
  C15_disabled_pwm_keeps_levels runArmed 4095 0 (by decide)

/-- C16: in a loop iteration that runs the positioning branch, for all samples
in `0 .. 4095` the new cursor equals the reference transform with the slow
factor taken as the rational 1/20 and truncation toward zero,
`cursor_x = clamp(60 - trunc(-(rawY - 2048)/20), 0, 120)` and
`cursor_y = clamp(28 - trunc((rawX - 2048)/20), 0, 56)`; the midpoint sample
`(2048, 2048)` gives `(60, 28)`; `cursor_x` does not change with `rawX` and
`cursor_y` does not change with `rawY`. -/
theorem C16_cursor_matches_reference (s : State) (i : TickIn) (x' y' : Nat)
    (hrev : s.exibir_alvo = false) (hok : s.altura_ok = true) (hloc : s.local_ok = true)
    (hx : i.adc_x < 4096) (hy : i.adc_y < 4096) (hx' : x' < 4096) (hy' : y' < 4096) :
    ((tick s i).cursor_x, (tick s i).cursor_y) = referenceCursor i.adc_x i.adc_y ∧
      (tick s i).cursor_x
        = clampQ (60 - truncQ (-((i.adc_y : ℚ) - 2048) * (1 / 20))) 0 120 ∧
      (tick s i).cursor_y
        = clampQ (28 - truncQ (((i.adc_x : ℚ) - 2048) * (1 / 20))) 0 56 ∧
      ((tick s { i with adc_x := 2048, adc_y := 2048 }).cursor_x,
        (tick s { i with adc_x := 2048, adc_y := 2048 }).cursor_y) = (60, 28) ∧
      (tick s { i with adc_x := x' }).cursor_x = (tick s i).cursor_x ∧
      (tick s { i with adc_y := y' }).cursor_y = (tick s i).cursor_y := by
  have key : ∀ j : TickIn, j.adc_x < 4096 → j.adc_y < 4096 →
      ((tick s j).cursor_x, (tick s j).cursor_y) = referenceCursor j.adc_x j.adc_y := by
    intro j hjx hjy
    have h1 := (tick_cursor_eq s j hrev hok hloc)
    rw [h1, Nat.mod_eq_of_lt (by omega), Nat.mod_eq_of_lt (by omega)]
    exact analogToCursor_eq_reference _ _ hjx hjy
  have k0 := key i hx hy
  have k1 := key { i with adc_x := 2048, adc_y := 2048 } (by norm_num) (by norm_num)
  have k2 := key { i with adc_x := x' } hx' hy
  have k3 := key { i with adc_y := y' } hx hy'
  have m : referenceCursor 2048 2048 = (60, 28) := by
    simp [referenceCursor, truncQ, clampQ]
  refine ⟨k0, ?_, ?_, ?_, ?_, ?_⟩
  · exact (congrArg Prod.fst k0)
  · exact (congrArg Prod.snd k0)
  · rw [k1]; exact m
  · exact (congrArg Prod.fst k2).trans (congrArg Prod.fst k0).symm
  · exact (congrArg Prod.snd k3).trans (congrArg Prod.snd k0).symm

/-- C16 at the positioning state of the worked session, samples `(2088, 1768)`. -/
theorem C16_cursor_matches_reference_witness :
    ((tick runPositioning (tickAt 4010 2088 1768)).cursor_x,
        (tick runPositioning (tickAt 4010 2088 1768)).cursor_y)
        = referenceCursor 2088 1768 ∧
      ((tick runPositioning (tickAt 4010 2088 1768)).cursor_x,
        (tick runPositioning (tickAt 4010 2088 1768)).cursor_y) = (46, 26) :=
  ⟨(C16_cursor_matches_reference runPositioning (tickAt 4010 2088 1768) 0 4095
      (by decide) (by decide) (by decide) (by decide) (by decide) (by decide) (by decide)).1,
    by decide⟩


/-- The reveal state of the worked session is reachable. -/
theorem runReveal_reachable : Reachable runReveal :=
  .press _ _ (.init 50 30 0)

/-- A call of the handler for one of the height buttons runs `heightButtons` on
the unchanged state. -/
theorem gpio_callback_height (s : State) (i : CallbackIn)
    (h : i.gpio = BUTTON_A_PIN ∨ i.gpio = BUTTON_B_PIN) :
    gpio_callback s i = heightButtons s i := by
  have hj : ¬ (i.gpio = JOYSTICK_PB) := by
    rcases h with h | h <;> rw [h] <;> decide
  simp only [gpio_callback, hj, if_false]

/-- A call of the handler that is not an accepted confirm press leaves an
Acquired state Acquired. -/
theorem gpio_callback_keeps_acquired (s : State) (i : CallbackIn) (hacq : Acquired s)
    (hn : ¬ AcceptedConfirm s i) : Acquired (gpio_callback s i) := by
  obtain ⟨a, la, lb, he, -⟩ := heightButtons_frame
    (if i.gpio = JOYSTICK_PB then
      (if (debounce i.debounce_time i.pin_high s.last_time_joystick).1 = true then
        confirmBody { s with last_time_joystick :=
          (debounce i.debounce_time i.pin_high s.last_time_joystick).2 } i
      else { s with last_time_joystick :=
          (debounce i.debounce_time i.pin_high s.last_time_joystick).2 })
    else s) i
  have hg : gpio_callback s i = heightButtons
    (if i.gpio = JOYSTICK_PB then
      (if (debounce i.debounce_time i.pin_high s.last_time_joystick).1 = true then
        confirmBody { s with last_time_joystick :=
          (debounce i.debounce_time i.pin_high s.last_time_joystick).2 } i
      else { s with last_time_joystick :=
          (debounce i.debounce_time i.pin_high s.last_time_joystick).2 })
    else s) i := rfl
  rw [hg, he]
  unfold AcceptedConfirm at hn
  by_cases h1 : i.gpio = JOYSTICK_PB
  · have h2 : ¬ ((debounce i.debounce_time i.pin_high s.last_time_joystick).1 = true) :=
      fun h => hn ⟨h1, h⟩
    simp only [h1, h2, if_true, if_false]
    exact hacq
  · simp only [h1, if_false]
    exact hacq

/-- C17: in every state reachable from session start by calls of the interrupt
handler and loop iterations, exactly one of the four phases is active, with
SettingHeight = (false, false, false, false), TransientTargetReveal = (true,
true, true, false), Positioning = (true, true, false, false) and Acquired =
(true, true, false, true) on the flags (`altura_ok`, `local_ok`, `exibir_alvo`,
`target_acquired`); and outside Positioning and Acquired `capture_mode` and
`in_position` are false. -/
theorem C17_phase_invariant (s : State) (h : Reachable s) :
    (SettingHeight s ∨ TransientTargetReveal s ∨ Positioning s ∨ Acquired s) ∧
      ¬ (SettingHeight s ∧ TransientTargetReveal s) ∧ ¬ (SettingHeight s ∧ Positioning s) ∧
      ¬ (SettingHeight s ∧ Acquired s) ∧ ¬ (TransientTargetReveal s ∧ Positioning s) ∧
      ¬ (TransientTargetReveal s ∧ Acquired s) ∧ ¬ (Positioning s ∧ Acquired s) ∧
      (¬ Positioning s → ¬ Acquired s → s.capture_mode = false ∧ s.in_position = false) :=
  (sessionInv_of_reachable s h).1

/-- C17 at the reveal state of the worked session. -/
theorem C17_phase_invariant_witness :
    TransientTargetReveal runReveal ∧ ¬ SettingHeight runReveal ∧ ¬ Positioning runReveal ∧
      ¬ Acquired runReveal ∧ runReveal.capture_mode = false ∧ runReveal.in_position = false :=
  ⟨by decide,
    fun h => (C17_phase_invariant runReveal runReveal_reachable).2.1 ⟨h, by decide⟩,
    fun h => (C17_phase_invariant runReveal runReveal_reachable).2.2.2.2.1 ⟨by decide, h⟩,
    fun h => (C17_phase_invariant runReveal runReveal_reachable).2.2.2.2.2.1 ⟨by decide, h⟩,
    ((C17_phase_invariant runReveal runReveal_reachable).2.2.2.2.2.2.2
      (by decide) (by decide)).1,
    ((C17_phase_invariant runReveal runReveal_reachable).2.2.2.2.2.2.2
      (by decide) (by decide)).2⟩

/-- C18: in every reachable state `0 <= altura <= 100`; a call of the handler
for the decrement button at `altura = 0` and one for the increment button at
`altura = 100` leave `altura` unchanged; and once `altura_ok` is true a call for
either height button changes nothing at all. -/
theorem C18_height_range (s : State) (i : CallbackIn) (h : Reachable s) :
    (0 ≤ s.altura ∧ s.altura ≤ 100) ∧
      (i.gpio = BUTTON_A_PIN → s.altura = 0 → (gpio_callback s i).altura = 0) ∧
      (i.gpio = BUTTON_B_PIN → s.altura = 100 → (gpio_callback s i).altura = 100) ∧
      (s.altura_ok = true → (i.gpio = BUTTON_A_PIN ∨ i.gpio = BUTTON_B_PIN) →
        gpio_callback s i = s) := by
  have hinv := sessionInv_of_reachable s h
  have hAB : ¬ (BUTTON_A_PIN = BUTTON_B_PIN) := by decide
  refine ⟨⟨hinv.2.1, hinv.2.2⟩, ?_, ?_, ?_⟩
  · intro hA h0
    rw [gpio_callback_height s i (Or.inl hA)]
    simp only [heightButtons, hA, hAB, if_true, if_false]
    split_ifs <;> simp_all
  · intro hB h100
    have hA : ¬ (i.gpio = BUTTON_A_PIN) := by rw [hB]; decide
    rw [gpio_callback_height s i (Or.inr hB)]
    simp only [heightButtons, hA, hB, if_true, if_false]
    split_ifs <;> simp_all
  · intro hok hg
    rw [gpio_callback_height s i hg]
    simp [heightButtons, hok]

/-- C18 at session start (decrement at 0) and at the positioning state of the
worked session (height confirmed). -/
theorem C18_height_range_witness :
    (gpio_callback runInit
        { gpio := BUTTON_A_PIN, debounce_time := 1000, pin_high := false, confirm_time := 1000,
          rand1 := 1, rand2 := 2, rand3 := 3 }).altura = 0 ∧
      gpio_callback runReveal
        { gpio := BUTTON_B_PIN, debounce_time := 2000, pin_high := false, confirm_time := 2000,
          rand1 := 1, rand2 := 2, rand3 := 3 } = runReveal ∧
      (0 ≤ runReveal.altura ∧ runReveal.altura ≤ 100) :=
  ⟨(C18_height_range runInit
      { gpio := BUTTON_A_PIN, debounce_time := 1000, pin_high := false, confirm_time := 1000,
        rand1 := 1, rand2 := 2, rand3 := 3 } (.init 50 30 0)).2.1 (by decide) (by decide),
    (C18_height_range runReveal
      { gpio := BUTTON_B_PIN, debounce_time := 2000, pin_high := false, confirm_time := 2000,
        rand1 := 1, rand2 := 2, rand3 := 3 } runReveal_reachable).2.2.2 (by decide)
      (Or.inr (by decide)),
    (C18_height_range runReveal (pressAt 2000) runReveal_reachable).1⟩


/-- The `uint32_t` difference of the main loop, written with integers: it is
`(now - start) mod 2^32`. -/
theorem elapsed_eq (now start : Nat) :
    (((now % 4294967296 + 4294967296 - start % 4294967296) % 4294967296 : Nat) : Int)
      = ((now : Int) - (start : Int)) % 4294967296 := by
  omega

/-- C19: in a TransientTargetReveal state, for every clock reading `now`, the
loop iteration clears `exibir_alvo` (giving Positioning) if and only if
`(now - exibir_alvo_start_time) mod 2^32 >= 3000`; when it does, no other field
changes, and otherwise the state is left as it was; in a reachable state
`capture_mode` is false after the iteration. -/
theorem C19_reveal_expiry (s : State) (i : TickIn) (hrev : TransientTargetReveal s) :
    ((tick s i).exibir_alvo = false ↔
        3000 ≤ ((i.current_time : Int) - (s.exibir_alvo_start_time : Int)) % 4294967296) ∧
      (3000 ≤ ((i.current_time : Int) - (s.exibir_alvo_start_time : Int)) % 4294967296 →
        tick s i = { s with exibir_alvo := false } ∧ Positioning (tick s i)) ∧
      (¬ (3000 ≤ ((i.current_time : Int) - (s.exibir_alvo_start_time : Int)) % 4294967296) →
        tick s i = s) ∧
      (Reachable s → (tick s i).capture_mode = false) := by
  obtain ⟨hok, hloc, hex, hacq⟩ := hrev
  have he := elapsed_eq i.current_time s.exibir_alvo_start_time
  have ht : tick s i =
      if (i.current_time % 4294967296 + 4294967296 - s.exibir_alvo_start_time % 4294967296)
          % 4294967296 ≥ TEMPO_EXIBICAO_ALVO
      then { s with exibir_alvo := false } else s := by
    simp only [tick, hex, if_true]
  have hT : TEMPO_EXIBICAO_ALVO = 3000 := rfl
  rw [hT] at ht
  by_cases hc : 3000 ≤ ((i.current_time : Int) - (s.exibir_alvo_start_time : Int)) % 4294967296
  · have hn : (i.current_time % 4294967296 + 4294967296 - s.exibir_alvo_start_time % 4294967296)
        % 4294967296 ≥ 3000 := by omega
    rw [if_pos hn] at ht
    rw [ht]
    refine ⟨⟨fun _ => hc, fun _ => rfl⟩, fun _ => ⟨rfl, ⟨hok, hloc, rfl, hacq⟩⟩,
      fun h => absurd hc h, ?_⟩
    intro hr
    exact ((sessionInv_of_reachable s hr).1.2.2.2.2.2.2.2
      (fun hp => by rw [hp.2.2.1] at hex; exact Bool.noConfusion hex)
      (fun hp => by rw [hp.2.2.1] at hex; exact Bool.noConfusion hex)).1
  · have hn : ¬ ((i.current_time % 4294967296 + 4294967296
        - s.exibir_alvo_start_time % 4294967296) % 4294967296 ≥ 3000) := by omega
    rw [if_neg hn] at ht
    rw [ht]
    refine ⟨⟨fun h => ?_, fun h => absurd h hc⟩, fun h => absurd h hc, fun _ => rfl, ?_⟩
    · rw [hex] at h; exact Bool.noConfusion h
    · intro hr
      exact ((sessionInv_of_reachable s hr).1.2.2.2.2.2.2.2
        (fun hp => by rw [hp.2.2.1] at hex; exact Bool.noConfusion hex)
        (fun hp => by rw [hp.2.2.1] at hex; exact Bool.noConfusion hex)).1

/-- C19 at the reveal state of the worked session (timer started at 1000 ms):
the iteration at 4000 ms ends the reveal, the one at 3999 ms does not. -/
theorem C19_reveal_expiry_witness :
    (tick runReveal (tickAt 4000 2048 2048) = { runReveal with exibir_alvo := false } ∧
        Positioning (tick runReveal (tickAt 4000 2048 2048))) ∧
      tick runReveal (tickAt 3999 2048 2048) = runReveal ∧
      (tick runReveal (tickAt 4000 2048 2048)).capture_mode = false :=
  ⟨(C19_reveal_expiry runReveal (tickAt 4000 2048 2048) (by decide)).2.1 (by decide),
    (C19_reveal_expiry runReveal (tickAt 3999 2048 2048) (by decide)).2.2.1 (by decide),
    (C19_reveal_expiry runReveal (tickAt 4000 2048 2048) (by decide)).2.2.2
      runReveal_reachable⟩

/-- C20: in every reachable state `altura_ok` equals `local_ok`; hence the path
condition of the cooldown branch of the main loop never holds, every loop
iteration in an Acquired state gives an Acquired state, and a call of the
interrupt handler that leaves Acquired is an accepted confirm press. -/
theorem C20_cooldown_branch_dead (s : State) (h : Reachable s) :
    s.altura_ok = s.local_ok ∧ ¬ CooldownGuard s ∧
      (Acquired s → ∀ i : TickIn, Acquired (tick s i)) ∧
      (Acquired s → ∀ i : CallbackIn, ¬ Acquired (gpio_callback s i) → AcceptedConfirm s i) := by
  have hinv := (phaseInv_iff s).1 (sessionInv_of_reachable s h).1
  refine ⟨hinv.1, ?_, ?_, ?_⟩
  · rintro ⟨-, h2, h3, -⟩
    rw [hinv.1, h3] at h2
    exact Bool.noConfusion h2
  · intro hacq i
    exact (tick_in_acquired s i hacq).1
  · intro hacq i hleave
    by_contra hn
    exact hleave (gpio_callback_keeps_acquired s i hacq hn)

/-- C20 at the acquired state of the worked session: the loop stays Acquired,
and the confirm press that leaves Acquired (joystick released) is accepted. -/
theorem C20_cooldown_branch_dead_witness :
    runAcquired.altura_ok = runAcquired.local_ok ∧ ¬ CooldownGuard runAcquired ∧
      Acquired (tick runAcquired (tickAt 5020 2048 2048)) ∧
      AcceptedConfirm runAcquiredAway (pressAt 6000) :=
  ⟨(C20_cooldown_branch_dead runAcquired runAcquired_reachable).1,
    (C20_cooldown_branch_dead runAcquired runAcquired_reachable).2.1,
    (C20_cooldown_branch_dead runAcquired runAcquired_reachable).2.2.1 (by decide)
      (tickAt 5020 2048 2048),
    (C20_cooldown_branch_dead runAcquiredAway runAcquiredAway_reachable).2.2.2 (by decide)
      (pressAt 6000) (by decide)⟩


end BracoRobotico
